import Mathlib

/-!
# Verification of the dungeongame command/state-reducer core

Shallow embedding of the TypeScript sources of the `dungeongame` repository
(files `src/lib/types.ts`, `src/lib/game/character.ts`, `src/lib/game/combat.ts`,
`src/lib/world/locations.ts`, `src/lib/world/npcs.ts`,
`src/lib/engine/game-engine.ts`, plus the character-class table and the
game-init log helper).  JavaScript numbers are embedded as `Int` where the
program only ever stores integers (hit points, gold, experience, armor class,
dice results) and as `Rat` where fractional values occur in the data
(item weights, shop price multipliers).  JavaScript `Record<string, T>`
objects are embedded as association lists `List (String × T)` with
first-match lookup and in-place update, matching object key semantics.
Log-message template literals are embedded as a constructor of the
`GameMessage` inductive carrying the interpolated values (string rendering
is presentation only); `nanoid` log-entry ids and `Date.now()` timestamps of
individual log entries are external nondeterminism and are omitted, while the
`GameState.timestamp` field is modelled via the environment's `now`.
-/

namespace DG

/-- The log entry severities of `LogEntry['type']` in `types.ts`. -/
inductive LogType
  | info | success | warning | error | combat | dialogue
deriving DecidableEq, Repr

/-- The item categories of `Item['type']` in `types.ts`. -/
inductive ItemType
  | weapon | armor | potion | treasure | quest | misc
deriving DecidableEq, Repr

/-- `Item` from `types.ts`. -/
structure Item where
  id : String
  name : String
  description : String
  weight : Rat
  value : Int
  type : ItemType
  usable : Bool
deriving DecidableEq, Repr

/-- The six ability names (keys of `AbilityScores` in `types.ts`). -/
inductive Ability
  | strength | dexterity | constitution | intelligence | wisdom | charisma
deriving DecidableEq, Repr

/-- `AbilityScores` from `types.ts`. -/
structure AbilityScores where
  strength : Int
  dexterity : Int
  constitution : Int
  intelligence : Int
  wisdom : Int
  charisma : Int
deriving DecidableEq, Repr

/-- `AbilityModifiers` from `types.ts`. -/
structure AbilityModifiers where
  strength : Int
  dexterity : Int
  constitution : Int
  intelligence : Int
  wisdom : Int
  charisma : Int
deriving DecidableEq, Repr

/-- Dynamic field access `modifiers[ability]` used by the dialogue
ability-check code in `game-engine.ts`. -/
def AbilityModifiers.get (m : AbilityModifiers) : Ability → Int
  | .strength => m.strength
  | .dexterity => m.dexterity
  | .constitution => m.constitution
  | .intelligence => m.intelligence
  | .wisdom => m.wisdom
  | .charisma => m.charisma

/-- The `hitPoints` record of `Character` in `types.ts`. -/
structure HitPoints where
  current : Int
  max : Int
deriving DecidableEq, Repr

/-- `Inventory` from `types.ts`. -/
structure Inventory where
  items : List Item
  maxWeight : Rat
  currentWeight : Rat
deriving DecidableEq, Repr

/-- `Character` from `types.ts`.  The source field `class` is a reserved
word in Lean and is embedded as `className`. -/
structure Character where
  id : String
  name : String
  race : String
  className : String
  level : Int
  experience : Int
  hitPoints : HitPoints
  abilityScores : AbilityScores
  abilityModifiers : AbilityModifiers
  inventory : Inventory
  gold : Int
  armorClass : Int
deriving DecidableEq, Repr

/-! ## Dice

`src/lib/game/dice.ts` is not among the provided source files (only its
callers are).  Modelled from the spec: `rollUniform(sides)` returns an
integer in `[1, sides]` with uniform probability.  The random collaborator
is embedded as a stream `ρ : Nat → Nat` of raw draws consumed at explicit
positions; the call at position `k` with `sides` faces yields
`ρ k % sides + 1`, which ranges over exactly `[1, sides]` as `ρ k` ranges
over the naturals. -/

/-- Modelled from the spec: `rollDice(sides)` (the engine's name for
`rollUniform`) drawing at stream position `k`. -/
def rollDice (ρ : Nat → Nat) (k : Nat) (sides : Nat) : Int :=
  Int.ofNat (ρ k % sides + 1)

/-! ## Character operations (`src/lib/game/character.ts`) -/

/-- `healCharacter` from `character.ts`: clamp `current + amount` at `max`. -/
def healCharacter (c : Character) (amount : Int) : Character :=
  { c with hitPoints := { c.hitPoints with
      current := min c.hitPoints.max (c.hitPoints.current + amount) } }

/-- `damageCharacter` from `character.ts`: clamp `current - amount` at `0`. -/
def damageCharacter (c : Character) (amount : Int) : Character :=
  { c with hitPoints := { c.hitPoints with
      current := max 0 (c.hitPoints.current - amount) } }

/-- `isAlive` from `character.ts`. -/
def isAlive (c : Character) : Bool :=
  decide (0 < c.hitPoints.current)

/-- The `(name, hitDie)` part of the `CLASSES` table in `classes.ts`.
The table's `description`, `primaryAbilities`, `startingEquipment` and
`startingGold` fields are only read by character creation, which no
embedded operation calls; `awardExperience` reads only `hitDie`. -/
structure CharacterClass where
  name : String
  hitDie : Nat
deriving DecidableEq, Repr

/-- The `CLASSES` record from `classes.ts` (keys as written there). -/
def CLASSES : List (String × CharacterClass) :=
  [ ("fighter", ⟨"Fighter", 10⟩)
  , ("wizard", ⟨"Wizard", 6⟩)
  , ("rogue", ⟨"Rogue", 8⟩)
  , ("cleric", ⟨"Cleric", 8⟩)
  , ("ranger", ⟨"Ranger", 10⟩)
  , ("paladin", ⟨"Paladin", 10⟩) ]

/-- Association-list embedding of JavaScript object indexing
`record[key]` (first match wins). -/
def recordGet {α : Type} (m : List (String × α)) (key : String) : Option α :=
  (m.find? (fun p => p.1 == key)).map (fun p => p.2)

/-- `getClass` from `classes.ts`: lowercases the name then indexes `CLASSES`. -/
def getClass (className : String) : Option CharacterClass :=
  recordGet CLASSES className.toLower

/-- The body of the level-up `while` loop of `awardExperience` in
`character.ts`.  The source loop terminates because `level` strictly
increases while `experience` stays fixed; here the loop is driven by a
fuel argument for which `awardExperience` supplies a provably sufficient
amount.  Returns the updated character and next roll position. -/
def levelUpLoop (ρ : Nat → Nat) (hitDie : Nat) :
    Nat → Nat → Character → Character × Nat
  | 0, k, c => (c, k)
  | fuel + 1, k, c =>
    if c.level * 1000 ≤ c.experience then
      let hitPointIncrease := rollDice ρ k hitDie + c.abilityModifiers.constitution
      let actualIncrease := max 1 hitPointIncrease
      levelUpLoop ρ hitDie fuel (k + 1)
        { c with
          level := c.level + 1,
          hitPoints :=
            ⟨c.hitPoints.current + actualIncrease, c.hitPoints.max + actualIncrease⟩ }
    else (c, k)

/-- `awardExperience` from `character.ts`.  Throws (models
`throw new Error`) when the character's class is unknown.  The fuel
`(newExperience + 1000 - level * 1000).toNat` dominates the number of
iterations of the source's `while` loop, since each iteration raises the
level threshold by 1000. -/
def awardExperience (ρ : Nat → Nat) (k : Nat) (c : Character) (xp : Int) :
    Except String ((Character × Bool) × Nat) :=
  let newExperience := c.experience + xp
  if c.level * 1000 ≤ newExperience then
    match getClass c.className with
    | none => .error ("Invalid class: " ++ c.className)
    | some characterClass =>
      let fuel := (newExperience + 1000 - c.level * 1000).toNat
      let (c', k') := levelUpLoop ρ characterClass.hitDie fuel k
        { c with experience := newExperience }
      .ok ((c', true), k')
  else
    .ok (({ c with experience := newExperience }, false), k)

/-! ## World data (`src/lib/types.ts`, `src/lib/world/locations.ts`,
`src/lib/world/npcs.ts`) -/

/-- The `connections` record of `Location` in `types.ts` (the six optional
compass/vertical exits). -/
structure Connections where
  north : Option String := none
  south : Option String := none
  east : Option String := none
  west : Option String := none
  up : Option String := none
  down : Option String := none
deriving DecidableEq, Repr

/-- `Location` from `types.ts`. -/
structure Location where
  id : String
  name : String
  description : String
  connections : Connections
  npcs : List String
  items : List Item
  visited : Bool
deriving DecidableEq, Repr

/-- `getConnectedLocation` from `locations.ts`: indexes the `connections`
object by the direction string; any other string yields no exit. -/
def getConnectedLocation (location : Location) (direction : String) :
    Option String :=
  match direction with
  | "north" => location.connections.north
  | "south" => location.connections.south
  | "east" => location.connections.east
  | "west" => location.connections.west
  | "up" => location.connections.up
  | "down" => location.connections.down
  | _ => none

/-- `getAvailableDirections` from `locations.ts`: `Object.keys` of the
defined connections.  The embedding uses the canonical field order of the
`connections` type; the source's key order is the insertion order of each
location literal, which only affects the rendering of the warning
message. -/
def getAvailableDirections (location : Location) : List String :=
  ((if location.connections.north.isSome then ["north"] else []) ++
   (if location.connections.south.isSome then ["south"] else []) ++
   (if location.connections.east.isSome then ["east"] else []) ++
   (if location.connections.west.isSome then ["west"] else []) ++
   (if location.connections.up.isSome then ["up"] else []) ++
   (if location.connections.down.isSome then ["down"] else []))

/-- The `requiresCheck` record of `DialogueOption` in `types.ts`. -/
structure AbilityCheck where
  ability : Ability
  dc : Int
deriving DecidableEq, Repr

/-- `DialogueOption` from `types.ts`.  The source's optional `action`
field stores an arbitrary closure `(gameState) => gameState` inside the
dialogue data; closures inside the state type would be a negative
occurrence, so the embedding defunctionalizes them: the field holds a
token and the engine applies the environment's `callbacks` table to it. -/
structure DialogueOption where
  text : String
  nextNodeId : Option String := none
  action : Option Nat := none
  requiresCheck : Option AbilityCheck := none
deriving DecidableEq, Repr

/-- `DialogueNode` from `types.ts`.  The optional `condition` predicate
closure is likewise defunctionalized to a token; no engine code ever
evaluates it. -/
structure DialogueNode where
  id : String
  text : String
  options : List DialogueOption
  condition : Option Nat := none
deriving DecidableEq, Repr

/-- The `stats` record of `NPC` in `types.ts`.  The `damage` dice
expression is stored in the source as a string `"XdY+Z"` that
`rollDamage` parses with a regex; the embedding keeps the parsed form
directly. -/
structure DamageExpr where
  count : Nat
  sides : Nat
  modifier : Int := 0
deriving DecidableEq, Repr

/-- The `stats` block of `NPC` from `types.ts`. -/
structure NPCStats where
  hitPoints : Int
  armorClass : Int
  attackBonus : Int
  damage : DamageExpr
deriving DecidableEq, Repr

/-- `ShopInventory` from `types.ts`. -/
structure ShopInventory where
  items : List Item
  buyMultiplier : Rat
  sellMultiplier : Rat
deriving DecidableEq, Repr

/-- `NPC` from `types.ts`. -/
structure NPC where
  id : String
  name : String
  description : String
  dialogue : List DialogueNode
  hostile : Bool
  stats : Option NPCStats := none
  questGiver : Option Bool := none
  shop : Option ShopInventory := none
deriving DecidableEq, Repr

/-- `getDialogueNode` from `npcs.ts`. -/
def getDialogueNode (npc : NPC) (nodeId : String) : Option DialogueNode :=
  npc.dialogue.find? (fun node => node.id == nodeId)

/-- `getStartingDialogue` from `npcs.ts`: a single `find` over the
dialogue list whose predicate accepts any of the three start-node ids, so
the first such node in list order wins. -/
def getStartingDialogue (npc : NPC) : Option DialogueNode :=
  npc.dialogue.find? (fun node =>
    node.id == "greeting" || node.id == "encounter" || node.id == "combat")

/-- `isHostile` from `npcs.ts`. -/
def isHostile (npc : NPC) : Bool :=
  npc.hostile

/-! ## Combat engine (`src/lib/game/combat.ts`) -/

/-- `rollInitiative` from `combat.ts`: d20 + dexterity modifier. -/
def rollInitiative (ρ : Nat → Nat) (k : Nat) (dexterityModifier : Int) : Int :=
  rollDice ρ k 20 + dexterityModifier

/-- Stable descending insertion by initiative value, embedding the
source's stable `Array.prototype.sort(([, a], [, b]) => b - a)`: an
element is placed before the first element whose initiative is `≤` its
own, so earlier entries stay first on ties. -/
def insertByInitiative (p : String × Int) :
    List (String × Int) → List (String × Int)
  | [] => [p]
  | q :: rest =>
    if q.2 ≤ p.2 then p :: q :: rest else q :: insertByInitiative p rest

/-- Stable descending sort by initiative (see `insertByInitiative`). -/
def sortByInitiative : List (String × Int) → List (String × Int)
  | [] => []
  | p :: rest => insertByInitiative p (sortByInitiative rest)

/-- `determineTurnOrder` from `combat.ts`: the player rolls
`d20 + dexterity modifier`; each enemy rolls `d20 + floor((AC - 10) / 2)`
(dexterity derived from armor class, `0` without stats); ids are sorted
descending by initiative, stably in entry order (player first, then the
encounter list).  Returns `((turnOrder, initiatives), nextRollPos)`. -/
def determineTurnOrder (ρ : Nat → Nat) (k : Nat) (character : Character)
    (enemies : List NPC) : (List String × List (String × Int)) × Nat :=
  let playerInit := rollInitiative ρ k character.abilityModifiers.dexterity
  let enemyInits := enemies.enum.map (fun (i, enemy) =>
    let dexMod := match enemy.stats with
      | some st => Int.fdiv (st.armorClass - 10) 2
      | none => 0
    (enemy.id, rollInitiative ρ (k + 1 + i) dexMod))
  let initiatives := (character.id, playerInit) :: enemyInits
  let turnOrder := (sortByInitiative initiatives).map (fun p => p.1)
  ((turnOrder, initiatives), k + 1 + enemies.length)

/-- The result record of `makeAttackRoll` in `combat.ts`. -/
structure AttackRoll where
  roll : Int
  total : Int
  hits : Bool
  critical : Bool
  criticalFail : Bool
deriving DecidableEq, Repr

/-- `makeAttackRoll` from `combat.ts`: d20 + attack bonus vs target AC;
a natural 20 always hits and is critical, a natural 1 is a critical
fail. -/
def makeAttackRoll (ρ : Nat → Nat) (k : Nat) (attackBonus targetAC : Int) :
    AttackRoll × Nat :=
  let roll := rollDice ρ k 20
  let total := roll + attackBonus
  (⟨roll, total, decide (targetAC ≤ total) || decide (roll = 20),
    decide (roll = 20), decide (roll = 1)⟩, k + 1)

/-- The dice-summing loop of `rollDamage` in `combat.ts`: `count`
independent rolls of a `sides`-sided die starting at stream position
`k`. -/
def sumDice (ρ : Nat → Nat) (k : Nat) (sides : Nat) : Nat → Int
  | 0 => 0
  | n + 1 => rollDice ρ k sides + sumDice ρ (k + 1) sides n

/-- `rollDamage` from `combat.ts` on the parsed damage expression: the
modifier plus `count` die rolls, floored at 0.  Consumes `count` stream
positions. -/
def rollDamage (ρ : Nat → Nat) (k : Nat) (d : DamageExpr) : Int × Nat :=
  (max 0 (d.modifier + sumDice ρ k d.sides d.count), k + d.count)

/-- `getAttackBonus` from `combat.ts`: ability modifier (strength, or
dexterity when ranged) plus proficiency bonus `floor((level - 1)/4) + 2`. -/
def getAttackBonus (character : Character) (ranged : Bool := false) : Int :=
  let proficiencyBonus := Int.fdiv (character.level - 1) 4 + 2
  let abilityModifier := if ranged
    then character.abilityModifiers.dexterity
    else character.abilityModifiers.strength
  abilityModifier + proficiencyBonus

/-- `getWeaponDamage` from `combat.ts`: class-based base die plus the
relevant ability modifier (the source renders this as a string
`"XdY±Z"`; the embedding returns the parsed form). -/
def getWeaponDamage (character : Character) (ranged : Bool := false) : DamageExpr :=
  let abilityModifier := if ranged
    then character.abilityModifiers.dexterity
    else character.abilityModifiers.strength
  let base : DamageExpr := match character.className with
    | "Fighter" => ⟨1, 8, 0⟩
    | "Paladin" => ⟨1, 8, 0⟩
    | "Ranger" => if ranged then ⟨1, 8, 0⟩ else ⟨1, 6, 0⟩
    | "Cleric" => ⟨1, 6, 0⟩
    | "Rogue" => ⟨1, 6, 0⟩
    | "Wizard" => ⟨1, 4, 0⟩
    | _ => ⟨1, 6, 0⟩
  { base with modifier := abilityModifier }

/-- The log messages produced by the engine.  Each constructor embeds one
template literal (or fixed string) of the source, carrying the
interpolated values; rendering to text is presentation only.  Constructor
names identify the producing site in `game-engine.ts`, `combat.ts` or
`character.ts`. -/
inductive GameMessage
  | adventureOver
  | cannotMoveInCombat
  | cannotGo (direction : String) (available : List String)
  | pathLeadsNowhere
  | locationDescription (text : String)
  | groundItems (names : List String)
  | npcsAttack (names : List String)
  | youSee (names : List String)
  | cannotTalkInCombat
  | personNotExist
  | npcNotHere (name : String)
  | npcHostile (name : String)
  | npcNothingToSay (name : String)
  | npcSays (name text : String)
  | optionsList (texts : List String)
  | notInConversation
  | endConversation (name : String)
  | nothingMoreToSay (name : String)
  | chooseBetween (optionCount : Nat)
  | youSay (text : String)
  | abilityCheckResult (ability : Ability) (roll modifier total dc : Int)
      (success : Bool)
  | notConvinced (name : String)
  | cannotTakeInCombat
  | itemNotHere
  | cannotCarryTake (name : String) (currentWeight maxWeight : Rat)
  | youPickUp (name : String)
  | cannotDropInCombat
  | dontHaveItem
  | youDrop (name : String)
  | cantUse (name : String)
  | useHeal (name : String) (amount current max : Int)
  | useNothing (name : String)
  | targetNotExist
  | cannotAttack (name : String)
  | youAttack (name : String)
  | notYourTurn
  | enemyNotInFight
  | enemyDefeated (name : String)
  | charCritHit (attacker target : String) (damage : Int)
  | charHit (attacker target : String) (damage : Int)
  | charCritMiss (attacker : String)
  | charMiss (attacker target : String) (total armorClass : Int)
  | enemyCritHit (attacker target : String) (damage : Int)
  | enemyHit (attacker target : String) (damage : Int)
  | enemyCritMiss (attacker : String)
  | enemyMiss (attacker target : String) (total armorClass : Int)
  | defensiveStance (name : String)
  | notInCombatFlee
  | fleeSuccess (name : String) (roll dc : Int)
  | fleeFail (name : String) (roll dc : Int)
  | escapedCombat
  | cannotBuyInCombat
  | merchantNoShop
  | notForSale
  | cannotAfford (name : String) (price gold : Int)
  | tooHeavyToBuy (name : String)
  | youBuy (name : String) (price goldRemaining : Int)
  | cannotSellInCombat
  | personNoBuy
  | youSell (name : String) (price goldTotal : Int)
  | cannotRestInCombat
  | notSafeToRest
  | alreadyFullHealth
  | youRest (current max : Int)
  | seeNothing
  | locationHeader (name : String)
  | exits (directions : List String)
  | onTheGround (names : List String)
  | present (names : List String)
  | inventoryEmpty
  | inventoryHeader (currentWeight maxWeight : Rat)
  | inventoryItem (name : String) (type : ItemType) (weight : Rat)
      (usable : Bool)
  | goldAmount (gold : Int)
  | statsHeader (name : String)
  | statsProgress (race className : String) (level experience : Int)
  | statsVitals (current max armorClass gold : Int)
  | statsPhysical (scores : AbilityScores) (modifiers : AbilityModifiers)
  | statsMental (scores : AbilityScores) (modifiers : AbilityModifiers)
  | hasFallen (name : String)
  | victory (experience gold : Int)
  | levelUp (level maxHitPoints : Int)
  | notInCombat
  | gameSaved
  | gameLoaded

/-- The attack result record returned by `characterAttack` and
`enemyAttack` in `combat.ts`. -/
structure AttackResult where
  attackRoll : AttackRoll
  damage : Int
  message : GameMessage

/-- `characterAttack` from `combat.ts`.  Throws (`Except.error`) when the
enemy has no combat stats, as the source does. -/
def characterAttack (ρ : Nat → Nat) (k : Nat) (character : Character)
    (enemy : NPC) : Except String (AttackResult × Nat) :=
  match enemy.stats with
  | none => .error "Enemy has no combat stats"
  | some stats =>
    let attackBonus := getAttackBonus character
    let (attackRoll, k1) := makeAttackRoll ρ k attackBonus stats.armorClass
    if attackRoll.critical then
      let (rolled, k2) := rollDamage ρ k1 (getWeaponDamage character)
      let damage := rolled * 2
      .ok (⟨attackRoll, damage,
        .charCritHit character.name enemy.name damage⟩, k2)
    else if attackRoll.hits then
      let (damage, k2) := rollDamage ρ k1 (getWeaponDamage character)
      .ok (⟨attackRoll, damage,
        .charHit character.name enemy.name damage⟩, k2)
    else if attackRoll.criticalFail then
      .ok (⟨attackRoll, 0, .charCritMiss character.name⟩, k1)
    else
      .ok (⟨attackRoll, 0,
        .charMiss character.name enemy.name attackRoll.total stats.armorClass⟩, k1)

/-- `enemyAttack` from `combat.ts`.  Throws when the enemy has no combat
stats, as the source does. -/
def enemyAttack (ρ : Nat → Nat) (k : Nat) (enemy : NPC)
    (character : Character) : Except String (AttackResult × Nat) :=
  match enemy.stats with
  | none => .error "Enemy has no combat stats"
  | some stats =>
    let (attackRoll, k1) := makeAttackRoll ρ k stats.attackBonus character.armorClass
    if attackRoll.critical then
      let (rolled, k2) := rollDamage ρ k1 stats.damage
      let damage := rolled * 2
      .ok (⟨attackRoll, damage,
        .enemyCritHit enemy.name character.name damage⟩, k2)
    else if attackRoll.hits then
      let (damage, k2) := rollDamage ρ k1 stats.damage
      .ok (⟨attackRoll, damage,
        .enemyHit enemy.name character.name damage⟩, k2)
    else if attackRoll.criticalFail then
      .ok (⟨attackRoll, 0, .enemyCritMiss enemy.name⟩, k1)
    else
      .ok (⟨attackRoll, 0,
        .enemyMiss enemy.name character.name attackRoll.total character.armorClass⟩, k1)

/-- The result record of `attemptFlee` in `combat.ts`. -/
structure FleeResult where
  success : Bool
  roll : Int
  message : GameMessage

/-- `attemptFlee` from `combat.ts`: `d20 + dexterity modifier ≥ 12`
(DC inclusive). -/
def attemptFlee (ρ : Nat → Nat) (k : Nat) (character : Character) :
    FleeResult × Nat :=
  let dc : Int := 12
  let roll := rollDice ρ k 20 + character.abilityModifiers.dexterity
  let success := decide (dc ≤ roll)
  (⟨success, roll,
    if success then .fleeSuccess character.name roll dc
    else .fleeFail character.name roll dc⟩, k + 1)

/-- `CombatState` from `types.ts`.  `enemyMaxHPs` (a
`Record<string, number>`) is an association list. -/
structure CombatState where
  active : Bool
  enemies : List NPC
  enemyMaxHPs : List (String × Int)
  totalEnemyCount : Nat
  turnOrder : List String
  currentTurnIndex : Nat
  round : Int
deriving DecidableEq, Repr

/-- `initiateCombat` from `combat.ts`: roll turn order, record each
stated enemy's starting HP, clone the enemies (value copy), count them,
start at round 1, cursor 0. -/
def initiateCombat (ρ : Nat → Nat) (k : Nat) (character : Character)
    (enemies : List NPC) : CombatState × Nat :=
  let ((turnOrder, _), k1) := determineTurnOrder ρ k character enemies
  let enemyMaxHPs := enemies.filterMap (fun e =>
    e.stats.map (fun st => (e.id, st.hitPoints)))
  ({ active := true
   , enemies := enemies
   , enemyMaxHPs := enemyMaxHPs
   , totalEnemyCount := enemies.length
   , turnOrder := turnOrder
   , currentTurnIndex := 0
   , round := 1 }, k1)

/-- `getCurrentCombatant` from `combat.ts`: `turnOrder[currentTurnIndex]`
(JavaScript indexing past the end yields `undefined`, embedded as
`none`). -/
def getCurrentCombatant (combat : CombatState) : Option String :=
  combat.turnOrder.get? combat.currentTurnIndex

/-- `isPlayerTurn` from `combat.ts` (`undefined === playerId` is
`false`). -/
def isPlayerTurn (combat : CombatState) (playerId : String) : Bool :=
  getCurrentCombatant combat == some playerId

/-- `nextTurn` from `combat.ts`: advance the cursor, wrapping to a new
round past the end of the turn order. -/
def nextTurn (combat : CombatState) : CombatState :=
  let nextIndex := combat.currentTurnIndex + 1
  if combat.turnOrder.length ≤ nextIndex then
    { combat with currentTurnIndex := 0, round := combat.round + 1 }
  else
    { combat with currentTurnIndex := nextIndex }

/-- The result record of `updateEnemyHP` in `combat.ts`. -/
structure UpdateEnemyResult where
  combat : CombatState
  enemyDefeated : Bool
  defeatedEnemy : Option NPC
deriving DecidableEq, Repr

/-- `updateEnemyHP` from `combat.ts`: subtract damage (clamped at 0) from
the named enemy, then drop every stated enemy at 0 HP from the live list,
and drop the named enemy from the turn order when it was just defeated. -/
def updateEnemyHP (combat : CombatState) (enemyId : String) (damage : Int) :
    UpdateEnemyResult :=
  let updatedEnemies := combat.enemies.map (fun enemy =>
    match enemy.stats with
    | some stats =>
      if enemy.id == enemyId then
        { enemy with stats := some { stats with
            hitPoints := max 0 (stats.hitPoints - damage) } }
      else enemy
    | none => enemy)
  let defeatedEnemy := updatedEnemies.find? (fun e =>
    e.id == enemyId && (match e.stats with
      | some st => decide (st.hitPoints ≤ 0)
      | none => false))
  let remainingEnemies := updatedEnemies.filter (fun e =>
    match e.stats with
    | some st => decide (0 < st.hitPoints)
    | none => true)
  let turnOrder := match defeatedEnemy with
    | some _ => combat.turnOrder.filter (fun id => id != enemyId)
    | none => combat.turnOrder
  { combat := { combat with enemies := remainingEnemies, turnOrder := turnOrder }
  , enemyDefeated := defeatedEnemy.isSome
  , defeatedEnemy := defeatedEnemy }

/-- The result record of `shouldEndCombat` in `combat.ts`. -/
structure EndCheck where
  shouldEnd : Bool
  victory : Bool
deriving DecidableEq, Repr

/-- `shouldEndCombat` from `combat.ts`: victory when every remaining
enemy is stat-less or at 0 HP. -/
def shouldEndCombat (combat : CombatState) : EndCheck :=
  let allEnemiesDefeated := combat.enemies.all (fun e =>
    match e.stats with
    | some st => decide (st.hitPoints ≤ 0)
    | none => true)
  ⟨allEnemiesDefeated, allEnemiesDefeated⟩

/-- The rewards record of `endCombat` in `combat.ts`. -/
structure CombatRewards where
  experienceGained : Int
  goldGained : Int
deriving DecidableEq, Repr

/-- The gold loop of `endCombat`: `count` draws of
`Math.floor(Math.random() * 41) + 10`.  `Math.random()` is the same
random collaborator; a draw at position `k` is embedded as
`ρ k % 41 ∈ [0, 40]` so each summand lies in `[10, 50]`. -/
def sumGold (ρ : Nat → Nat) (k : Nat) : Nat → Int
  | 0 => 0
  | n + 1 => (Int.ofNat (ρ k % 41) + 10) + sumGold ρ (k + 1) n

/-- `endCombat` from `combat.ts`: rewards computed from
`totalEnemyCount || enemies.length` (JavaScript `||`: the recorded count,
falling back to the live list length only when the count is 0). -/
def endCombat (ρ : Nat → Nat) (k : Nat) (combat : CombatState) :
    CombatRewards × Nat :=
  let count := if combat.totalEnemyCount ≠ 0 then combat.totalEnemyCount
    else combat.enemies.length
  let experienceGained := Int.ofNat count * 100
  let goldGained := sumGold ρ k count
  (⟨experienceGained, goldGained⟩, k + count)

/-! ## Game state (`src/lib/types.ts`, `src/lib/engine/game-init.ts`) -/

/-- `LogEntry` from `types.ts`.  The source also carries a `nanoid` id
and a `Date.now()` timestamp per entry; both are external nondeterminism
with no reader in the engine and are omitted. -/
structure LogEntry where
  message : GameMessage
  type : LogType

/-- `ActiveDialogue` from `types.ts`. -/
structure ActiveDialogue where
  npcId : String
  currentNodeId : String
deriving DecidableEq, Repr

/-- `QuestObjective` from `types.ts` (`type` field as a plain string tag;
no engine rule ever reads quests). -/
structure QuestObjective where
  id : String
  description : String
  completed : Bool
  type : String
  target : Option String := none
  count : Option Int := none
  currentCount : Option Int := none
deriving DecidableEq, Repr

/-- The `rewards` record of `Quest` in `types.ts`. -/
structure QuestRewards where
  experience : Int
  gold : Option Int := none
  items : Option (List Item) := none
deriving DecidableEq, Repr

/-- `Quest` from `types.ts` (`status` as a plain string tag). -/
structure Quest where
  id : String
  title : String
  description : String
  objectives : List QuestObjective
  rewards : QuestRewards
  status : String
deriving DecidableEq, Repr

/-- `GameState` from `types.ts`.  The `locations` and `npcs`
`Record<string, _>` maps are association lists. -/
structure GameState where
  character : Character
  currentLocationId : String
  locations : List (String × Location)
  npcs : List (String × NPC)
  quests : List Quest
  combat : CombatState
  activeDialogue : Option ActiveDialogue
  gameLog : List LogEntry
  timestamp : Nat

/-- The external collaborators of one reducer call: the random stream
(`rollDice` / `Math.random`), the clock (`Date.now()`), and the
defunctionalized dialogue `action` callbacks (see `DialogueOption`). -/
structure Env where
  rolls : Nat → Nat
  now : Nat
  callbacks : Nat → GameState → GameState

/-- `createLogEntry` from `game-init.ts` (minus the omitted `nanoid` id
and per-entry timestamp). -/
def createLogEntry (message : GameMessage) (type : LogType := .info) : LogEntry :=
  ⟨message, type⟩

/-- `GameAction` from `types.ts`: the typed action vocabulary consumed by
the reducer. -/
inductive GameAction
  | move (direction : String)
  | talk (npcId : String)
  | dialogueSelect (optionIndex : Int)
  | take (itemId : String)
  | drop (itemId : String)
  | use (itemId : String)
  | attack (targetId : String)
  | defend
  | flee
  | buy (itemId : String) (npcId : String)
  | sell (itemId : String) (npcId : String)
  | rest
  | look
  | inventory
  | stats
  | saveGame
  | loadGame (saveId : String)
deriving DecidableEq, Repr

/-! ## The reducer (`src/lib/engine/game-engine.ts`) -/

/-- `REST_LOCATIONS` from `game-engine.ts`. -/
def REST_LOCATIONS : List String := ["tavern-rooms", "forest-clearing"]

/-- Association-list embedding of the JavaScript object spread-update
`{ ...record, [key]: value }`: replaces in place when the key exists,
appends otherwise. -/
def recordSet {α : Type} (m : List (String × α)) (key : String) (v : α) :
    List (String × α) :=
  if m.any (fun p => p.1 == key) then
    m.map (fun p => if p.1 == key then (key, v) else p)
  else m ++ [(key, v)]

/-- `addLog` from `game-engine.ts`: append one entry, refresh the
state timestamp. -/
def addLog (env : Env) (state : GameState) (message : GameMessage)
    (type : LogType := .info) : GameState :=
  { state with
    gameLog := state.gameLog ++ [createLogEntry message type]
    timestamp := env.now }

/-- The inactive/empty combat value the engine resets to (spelled out
inline in `handleFlee`, `runEnemyTurns` and `handleCombatVictory`). -/
def emptyCombat : CombatState :=
  { active := false, enemies := [], enemyMaxHPs := [], totalEnemyCount := 0
  , turnOrder := [], currentTurnIndex := 0, round := 0 }

/-- `runEnemyTurns` from `game-engine.ts`: while combat is active and it
is not the player's turn, the current combatant attacks the player
(skipping absent, stat-less or dead entries), applying damage and ending
combat at once when the player falls; otherwise the turn advances and the
loop continues.  The source's `while` loop is driven here by fuel (each
iteration consumes one unit; every theorem about it holds for every
fuel). -/
def runEnemyTurns (env : Env) : Nat → GameState → Nat →
    Except String (GameState × Nat)
  | 0, state, k => .ok (state, k)
  | fuel + 1, state, k =>
    if state.combat.active && !(isPlayerTurn state.combat state.character.id) then
      let enemy : Option NPC := match getCurrentCombatant state.combat with
        | some currentId => state.combat.enemies.find? (fun e => e.id == currentId)
        | none => none
      match enemy with
      | none => runEnemyTurns env fuel
          { state with combat := nextTurn state.combat } k
      | some e =>
        match e.stats with
        | none => runEnemyTurns env fuel
            { state with combat := nextTurn state.combat } k
        | some stats =>
          if stats.hitPoints ≤ 0 then
            runEnemyTurns env fuel { state with combat := nextTurn state.combat } k
          else do
            let (result, k1) ← enemyAttack env.rolls k e state.character
            let st1 := addLog env state result.message .combat
            if 0 < result.damage then
              let damagedCharacter := damageCharacter st1.character result.damage
              let st2 := { st1 with character := damagedCharacter }
              if !(isAlive damagedCharacter) then
                let st3 := addLog env st2 (.hasFallen st2.character.name) .error
                .ok ({ st3 with combat := emptyCombat }, k1)
              else
                runEnemyTurns env fuel { st2 with combat := nextTurn st2.combat } k1
            else
              runEnemyTurns env fuel { st1 with combat := nextTurn st1.combat } k1
    else .ok (state, k)

/-- `handleCombatVictory` from `game-engine.ts`: settle rewards from the
combat state, award experience and gold, reset combat, log victory (and
level-up), then filter `state.combat.enemies`'s ids out of every
location's NPC list. -/
def handleCombatVictory (env : Env) (state : GameState) (k : Nat) :
    Except String (GameState × Nat) := do
  let (rewards, k1) := endCombat env.rolls k state.combat
  let ((xpCharacter, leveledUp), k2) ←
    awardExperience env.rolls k1 state.character rewards.experienceGained
  let updatedCharacter := { xpCharacter with
    gold := xpCharacter.gold + rewards.goldGained }
  let st1 := { state with character := updatedCharacter, combat := emptyCombat }
  let st2 := addLog env st1
    (.victory rewards.experienceGained rewards.goldGained) .success
  let st3 := if leveledUp then
      addLog env st2
        (.levelUp updatedCharacter.level updatedCharacter.hitPoints.max) .success
    else st2
  let defeatedIds := state.combat.enemies.map (fun e => e.id)
  let updatedLocations := st3.locations.map (fun p =>
    (p.1, { p.2 with npcs := p.2.npcs.filter (fun id => !(defeatedIds.contains id)) }))
  .ok ({ st3 with locations := updatedLocations }, k2)

/-- `processPlayerAttack` from `game-engine.ts`: resolve the player's
attack against the named live enemy, apply damage and prune defeats,
settle victory, otherwise advance the turn and run enemy turns. -/
def processPlayerAttack (env : Env) (fuel : Nat) (state : GameState)
    (targetId : String) (k : Nat) : Except String (GameState × Nat) :=
  match state.combat.enemies.find? (fun e => e.id == targetId) with
  | none => .ok (addLog env state .enemyNotInFight .warning, k)
  | some enemy => do
    let (result, k1) ← characterAttack env.rolls k state.character enemy
    let st1 := addLog env state result.message .combat
    let st2 :=
      if 0 < result.damage then
        let u := updateEnemyHP st1.combat targetId result.damage
        let st := { st1 with combat := u.combat }
        match u.defeatedEnemy with
        | some defeatedEnemy =>
          if u.enemyDefeated then
            addLog env st (.enemyDefeated defeatedEnemy.name) .success
          else st
        | none => st
      else st1
    let check := shouldEndCombat st2.combat
    if check.shouldEnd && check.victory then
      handleCombatVictory env st2 k1
    else
      runEnemyTurns env fuel { st2 with combat := nextTurn st2.combat } k1

/-- `handleMove` from `game-engine.ts`.  Blocked in combat; clears any
active dialogue *before* validating the direction; an unmapped direction
or missing target yields only a log entry (on the dialogue-cleared
state); on success marks the target visited, logs its description,
ground items, and either auto-initiates combat against all living hostile
stat-bearing NPCs (running enemy turns) or lists friendly NPCs.  A
current-location id absent from the map would make the source dereference
`undefined` (TypeError), embedded as `Except.error`. -/
def handleMove (env : Env) (fuel : Nat) (state : GameState)
    (direction : String) (k : Nat) : Except String (GameState × Nat) :=
  if state.combat.active then
    .ok (addLog env state .cannotMoveInCombat .warning, k)
  else
    let state := match state.activeDialogue with
      | some _ => { state with activeDialogue := none }
      | none => state
    match recordGet state.locations state.currentLocationId with
    | none => .error "TypeError: current location is undefined"
    | some currentLocation =>
      match getConnectedLocation currentLocation direction with
      | none =>
        let available := getAvailableDirections currentLocation
        .ok (addLog env state (.cannotGo direction available) .warning, k)
      | some targetLocationId =>
        match recordGet state.locations targetLocationId with
        | none => .ok (addLog env state .pathLeadsNowhere .error, k)
        | some targetLocation =>
          let updatedLocations := recordSet state.locations targetLocationId
            { targetLocation with visited := true }
          let newState := { state with
            currentLocationId := targetLocationId
            locations := updatedLocations }
          let newState := addLog env newState
            (.locationDescription targetLocation.description) .info
          let newState :=
            if targetLocation.items.length ≠ 0 then
              addLog env newState
                (.groundItems (targetLocation.items.map (fun i => i.name))) .info
            else newState
          let hostileNpcIds := targetLocation.npcs.filter (fun npcId =>
            match recordGet newState.npcs npcId with
            | some npc => isHostile npc && (match npc.stats with
                | some st => decide (0 < st.hitPoints)
                | none => false)
            | none => false)
          if hostileNpcIds.length ≠ 0 then
            let hostileNpcs := hostileNpcIds.filterMap
              (fun id => recordGet newState.npcs id)
            let names := hostileNpcs.map (fun n => n.name)
            let newState := addLog env newState (.npcsAttack names) .combat
            let (combatState, k1) :=
              initiateCombat env.rolls k newState.character hostileNpcs
            runEnemyTurns env fuel { newState with combat := combatState } k1
          else
            let friendlyNpcs := (targetLocation.npcs.filterMap
              (fun id => recordGet newState.npcs id)).filter (fun n => !n.hostile)
            if friendlyNpcs.length ≠ 0 then
              .ok (addLog env newState
                (.youSee (friendlyNpcs.map (fun n => n.name))) .info, k)
            else .ok (newState, k)

/-- `handleTalk` from `game-engine.ts`.  Blocked in combat; fails when
the NPC is unknown, absent from the current location, or hostile; starts
at `getStartingDialogue`, entering dialogue mode only when that node has
options.  A missing current location is the source's TypeError. -/
def handleTalk (env : Env) (state : GameState) (npcId : String) :
    Except String GameState :=
  if state.combat.active then
    .ok (addLog env state .cannotTalkInCombat .warning)
  else
    match recordGet state.npcs npcId with
    | none => .ok (addLog env state .personNotExist .error)
    | some npc =>
      match recordGet state.locations state.currentLocationId with
      | none => .error "TypeError: current location is undefined"
      | some location =>
        if !(location.npcs.contains npcId) then
          .ok (addLog env state (.npcNotHere npc.name) .warning)
        else if isHostile npc then
          .ok (addLog env state (.npcHostile npc.name) .warning)
        else
          match getStartingDialogue npc with
          | none => .ok (addLog env state (.npcNothingToSay npc.name) .info)
          | some startDialogue =>
            let newState := addLog env state
              (.npcSays npc.name startDialogue.text) .dialogue
            if startDialogue.options.length ≠ 0 then
              let newState := addLog env newState
                (.optionsList (startDialogue.options.map (fun o => o.text))) .dialogue
              .ok { newState with
                activeDialogue := some ⟨npcId, startDialogue.id⟩ }
            else .ok newState

/-- The callback-application and next-node traversal tail of
`handleDialogueSelect` (the part after a passed — or absent — ability
check). -/
def dialogueFollow (env : Env) (npc : NPC) (npcId : String)
    (option : DialogueOption) (state : GameState) (k : Nat) :
    GameState × Nat :=
  let newState := match option.action with
    | some token => env.callbacks token state
    | none => state
  match option.nextNodeId with
  | some nextNodeId =>
    (match getDialogueNode npc nextNodeId with
     | some nextNode =>
       let newState := addLog env newState (.npcSays npc.name nextNode.text) .dialogue
       if nextNode.options.length ≠ 0 then
         let newState := addLog env newState
           (.optionsList (nextNode.options.map (fun o => o.text))) .dialogue
         ({ newState with activeDialogue := some ⟨npcId, nextNode.id⟩ }, k)
       else ({ newState with activeDialogue := none }, k)
     | none => ({ newState with activeDialogue := none }, k))
  | none => ({ newState with activeDialogue := none }, k)

/-- `handleDialogueSelect` from `game-engine.ts`.  Warns without a
conversation; sentinel −1 ends it; an out-of-range index warns and stays;
an ability-check failure stays on the node without running the option's
callback; otherwise the callback runs and traversal follows
`nextNodeId`. -/
def handleDialogueSelect (env : Env) (state : GameState)
    (optionIndex : Int) (k : Nat) : GameState × Nat :=
  match state.activeDialogue with
  | none => (addLog env state .notInConversation .warning, k)
  | some activeDialogue =>
    match recordGet state.npcs activeDialogue.npcId with
    | none => ({ state with activeDialogue := none }, k)
    | some npc =>
      if optionIndex = -1 then
        let newState := addLog env state (.endConversation npc.name) .info
        ({ newState with activeDialogue := none }, k)
      else
        match getDialogueNode npc activeDialogue.currentNodeId with
        | none =>
          ({ addLog env state (.nothingMoreToSay npc.name) .info with
             activeDialogue := none }, k)
        | some currentNode =>
          if optionIndex < 0 ∨ (currentNode.options.length : Int) ≤ optionIndex then
            (addLog env state (.chooseBetween currentNode.options.length) .warning, k)
          else
            match currentNode.options.get? optionIndex.toNat with
            | none =>
              -- unreachable: the guard above pins the index into range
              (addLog env state (.chooseBetween currentNode.options.length) .warning, k)
            | some option =>
              let newState := addLog env state (.youSay option.text) .dialogue
              match option.requiresCheck with
              | some check =>
                let modifier := newState.character.abilityModifiers.get check.ability
                let roll := rollDice env.rolls k 20
                let total := roll + modifier
                let success := decide (check.dc ≤ total)
                let newState := addLog env newState
                  (.abilityCheckResult check.ability roll modifier total check.dc success)
                  (if success then .success else .warning)
                if success then
                  dialogueFollow env npc activeDialogue.npcId option newState (k + 1)
                else
                  (addLog env newState (.notConvinced npc.name) .dialogue, k + 1)
              | none =>
                dialogueFollow env npc activeDialogue.npcId option newState k

/-- `handleTake` from `game-engine.ts`.  Blocked in combat; warns when
the item is not on the ground here; refuses (never clamps) when the new
weight would exceed capacity; otherwise moves the item from the location
to the inventory.  A missing current location is the source's
TypeError. -/
def handleTake (env : Env) (state : GameState) (itemId : String) :
    Except String GameState :=
  if state.combat.active then
    .ok (addLog env state .cannotTakeInCombat .warning)
  else
    match recordGet state.locations state.currentLocationId with
    | none => .error "TypeError: current location is undefined"
    | some location =>
      match location.items.find? (fun i => i.id == itemId) with
      | none => .ok (addLog env state .itemNotHere .warning)
      | some item =>
        let itemIndex := location.items.findIdx (fun i => i.id == itemId)
        let newWeight := state.character.inventory.currentWeight + item.weight
        if state.character.inventory.maxWeight < newWeight then
          .ok (addLog env state
            (.cannotCarryTake item.name state.character.inventory.currentWeight
              state.character.inventory.maxWeight) .warning)
        else
          let updatedLocations := recordSet state.locations state.currentLocationId
            { location with items := location.items.eraseIdx itemIndex }
          let updatedCharacter := { state.character with
            inventory := { state.character.inventory with
              items := state.character.inventory.items ++ [item]
              currentWeight := newWeight } }
          .ok (addLog env
            { state with character := updatedCharacter, locations := updatedLocations }
            (.youPickUp item.name) .success)

/-- `handleDrop` from `game-engine.ts`.  Blocked in combat; warns when
the item is not held; otherwise moves the item from the inventory to the
current location.  (With a current-location id absent from the map the
source would spread `undefined` into a malformed location object; that
unreachable branch is embedded as `Except.error`.) -/
def handleDrop (env : Env) (state : GameState) (itemId : String) :
    Except String GameState :=
  if state.combat.active then
    .ok (addLog env state .cannotDropInCombat .warning)
  else
    match state.character.inventory.items.find? (fun i => i.id == itemId) with
    | none => .ok (addLog env state .dontHaveItem .warning)
    | some item =>
      let itemIndex := state.character.inventory.items.findIdx
        (fun i => i.id == itemId)
      let updatedCharacter := { state.character with
        inventory := { state.character.inventory with
          items := state.character.inventory.items.eraseIdx itemIndex
          currentWeight := state.character.inventory.currentWeight - item.weight } }
      match recordGet state.locations state.currentLocationId with
      | none => .error "TypeError: current location is undefined"
      | some location =>
        let updatedLocations := recordSet state.locations state.currentLocationId
          { location with items := location.items ++ [item] }
        .ok (addLog env
          { state with character := updatedCharacter, locations := updatedLocations }
          (.youDrop item.name) .info)

/-- `handleUse` from `game-engine.ts`.  Never consults combat state.
Warns when the item is not held or not usable; a usable potion heals
`2d4+2` (the source's two `rollDice(4)` calls plus 2) and is consumed
(removed, weight reduced); any other usable item only logs a flavor
message. -/
def handleUse (env : Env) (state : GameState) (itemId : String) (k : Nat) :
    GameState × Nat :=
  match state.character.inventory.items.find? (fun i => i.id == itemId) with
  | none => (addLog env state .dontHaveItem .warning, k)
  | some item =>
    let itemIndex := state.character.inventory.items.findIdx
      (fun i => i.id == itemId)
    if !item.usable then
      (addLog env state (.cantUse item.name) .warning, k)
    else if item.type = .potion then
      let healAmount := rollDice env.rolls k 4 + rollDice env.rolls (k + 1) 4 + 2
      let healedCharacter := healCharacter state.character healAmount
      let updatedCharacter := { healedCharacter with
        inventory := { healedCharacter.inventory with
          items := healedCharacter.inventory.items.eraseIdx itemIndex
          currentWeight := healedCharacter.inventory.currentWeight - item.weight } }
      (addLog env { state with character := updatedCharacter }
        (.useHeal item.name healAmount updatedCharacter.hitPoints.current
          updatedCharacter.hitPoints.max) .success, k + 2)
    else
      (addLog env state (.useNothing item.name) .info, k)

/-- `handleAttack` from `game-engine.ts`.  Out of combat: validate the
target exists and has stats, log the opening strike, initiate combat
against that single NPC and resolve the player's attack immediately
(first strike regardless of initiative).  In combat: require the player's
turn, then resolve against the named live enemy. -/
def handleAttack (env : Env) (fuel : Nat) (state : GameState)
    (targetId : String) (k : Nat) : Except String (GameState × Nat) :=
  if !state.combat.active then
    match recordGet state.npcs targetId with
    | none => .ok (addLog env state .targetNotExist .error, k)
    | some npc =>
      match npc.stats with
      | none => .ok (addLog env state (.cannotAttack npc.name) .warning, k)
      | some _ =>
        let newState := addLog env state (.youAttack npc.name) .combat
        let (combatState, k1) := initiateCombat env.rolls k newState.character [npc]
        processPlayerAttack env fuel { newState with combat := combatState }
          targetId k1
  else if !(isPlayerTurn state.combat state.character.id) then
    .ok (addLog env state .notYourTurn .warning, k)
  else
    processPlayerAttack env fuel state targetId k

/-- The state `handleDefend` hands to `runEnemyTurns`: stance logged,
armor class boosted by 2, turn advanced. -/
def defendIntermediate (env : Env) (state : GameState) : GameState :=
  let newState := addLog env state (.defensiveStance state.character.name) .combat
  let newState := { newState with
    character := { newState.character with
      armorClass := newState.character.armorClass + 2 } }
  { newState with combat := nextTurn newState.combat }

/-- `handleDefend` from `game-engine.ts`.  Requires active combat on the
player's turn; boosts armor class by 2, advances the turn, runs enemy
turns, then removes the boost from whatever state results (including the
player-death path). -/
def handleDefend (env : Env) (fuel : Nat) (state : GameState) (k : Nat) :
    Except String (GameState × Nat) :=
  if !state.combat.active then
    .ok (addLog env state .notInCombat .warning, k)
  else if !(isPlayerTurn state.combat state.character.id) then
    .ok (addLog env state .notYourTurn .warning, k)
  else do
    let (newState, k1) ← runEnemyTurns env fuel (defendIntermediate env state) k
    .ok ({ newState with
      character := { newState.character with
        armorClass := newState.character.armorClass - 2 } }, k1)

/-- `handleFlee` from `game-engine.ts`.  Requires active combat; success
resets combat to the inactive/empty value; failure costs the turn and
runs enemy turns. -/
def handleFlee (env : Env) (fuel : Nat) (state : GameState) (k : Nat) :
    Except String (GameState × Nat) :=
  if !state.combat.active then
    .ok (addLog env state .notInCombatFlee .warning, k)
  else
    let (result, k1) := attemptFlee env.rolls k state.character
    let newState := addLog env state result.message .combat
    if result.success then
      let newState := { newState with combat := emptyCombat }
      .ok (addLog env newState .escapedCombat .success, k1)
    else
      runEnemyTurns env fuel { newState with combat := nextTurn newState.combat } k1

/-- `handleBuy` from `game-engine.ts`.  Blocked in combat; fails when the
NPC is unknown or shopless, the item unlisted, gold short of
`ceil(value × buyMultiplier)`, or capacity exceeded; on success the item
moves shop→inventory and gold decreases by the price. -/
def handleBuy (env : Env) (state : GameState) (itemId npcId : String) :
    GameState :=
  if state.combat.active then
    addLog env state .cannotBuyInCombat .warning
  else
    match recordGet state.npcs npcId with
    | none => addLog env state .merchantNoShop .warning
    | some npc =>
      match npc.shop with
      | none => addLog env state .merchantNoShop .warning
      | some shop =>
        match shop.items.find? (fun i => i.id == itemId) with
        | none => addLog env state .notForSale .warning
        | some item =>
          let itemIndex := shop.items.findIdx (fun i => i.id == itemId)
          let price := ((item.value : Rat) * shop.buyMultiplier).ceil
          if state.character.gold < price then
            addLog env state
              (.cannotAfford item.name price state.character.gold) .warning
          else
            let newWeight := state.character.inventory.currentWeight + item.weight
            if state.character.inventory.maxWeight < newWeight then
              addLog env state (.tooHeavyToBuy item.name) .warning
            else
              let updatedNpcs := recordSet state.npcs npcId
                { npc with shop := some { shop with
                    items := shop.items.eraseIdx itemIndex } }
              let updatedCharacter := { state.character with
                gold := state.character.gold - price
                inventory := { state.character.inventory with
                  items := state.character.inventory.items ++ [item]
                  currentWeight := newWeight } }
              addLog env
                { state with character := updatedCharacter, npcs := updatedNpcs }
                (.youBuy item.name price updatedCharacter.gold) .success

/-- `handleSell` from `game-engine.ts`.  Blocked in combat; fails when
the NPC is unknown or shopless or the item not held; on success the item
moves inventory→shop and gold increases by
`floor(value × sellMultiplier)`. -/
def handleSell (env : Env) (state : GameState) (itemId npcId : String) :
    GameState :=
  if state.combat.active then
    addLog env state .cannotSellInCombat .warning
  else
    match recordGet state.npcs npcId with
    | none => addLog env state .personNoBuy .warning
    | some npc =>
      match npc.shop with
      | none => addLog env state .personNoBuy .warning
      | some shop =>
        match state.character.inventory.items.find? (fun i => i.id == itemId) with
        | none => addLog env state .dontHaveItem .warning
        | some item =>
          let itemIndex := state.character.inventory.items.findIdx
            (fun i => i.id == itemId)
          let price := ((item.value : Rat) * shop.sellMultiplier).floor
          let updatedNpcs := recordSet state.npcs npcId
            { npc with shop := some { shop with items := shop.items ++ [item] } }
          let updatedCharacter := { state.character with
            gold := state.character.gold + price
            inventory := { state.character.inventory with
              items := state.character.inventory.items.eraseIdx itemIndex
              currentWeight := state.character.inventory.currentWeight - item.weight } }
          addLog env
            { state with character := updatedCharacter, npcs := updatedNpcs }
            (.youSell item.name price updatedCharacter.gold) .success

/-- `handleRest` from `game-engine.ts`.  Blocked in combat and outside
`REST_LOCATIONS`; a no-op info at full health; otherwise heals to
full. -/
def handleRest (env : Env) (state : GameState) : GameState :=
  if state.combat.active then
    addLog env state .cannotRestInCombat .warning
  else if !(REST_LOCATIONS.contains state.currentLocationId) then
    addLog env state .notSafeToRest .warning
  else if state.character.hitPoints.max ≤ state.character.hitPoints.current then
    addLog env state .alreadyFullHealth .info
  else
    let healedCharacter := healCharacter state.character state.character.hitPoints.max
    addLog env { state with character := healedCharacter }
      (.youRest healedCharacter.hitPoints.current healedCharacter.hitPoints.max)
      .success

/-- `handleLook` from `game-engine.ts`: a read-only description sequence
(the source tolerates a missing location here). -/
def handleLook (env : Env) (state : GameState) : GameState :=
  match recordGet state.locations state.currentLocationId with
  | none => addLog env state .seeNothing .info
  | some location =>
    let newState := addLog env state (.locationHeader location.name) .info
    let newState := addLog env newState (.locationDescription location.description) .info
    let directions := getAvailableDirections location
    let newState := if directions.length ≠ 0 then
        addLog env newState (.exits directions) .info
      else newState
    let newState := if location.items.length ≠ 0 then
        addLog env newState (.onTheGround (location.items.map (fun i => i.name))) .info
      else newState
    let npcsHere := location.npcs.filterMap (fun id => recordGet state.npcs id)
    if npcsHere.length ≠ 0 then
      addLog env newState (.present (npcsHere.map (fun n => n.name))) .info
    else newState

/-- `handleInventory` from `game-engine.ts`: read-only listing. -/
def handleInventory (env : Env) (state : GameState) : GameState :=
  let inv := state.character.inventory
  if inv.items.length = 0 then
    addLog env state .inventoryEmpty .info
  else
    let newState := addLog env state
      (.inventoryHeader inv.currentWeight inv.maxWeight) .info
    let newState := inv.items.foldl (fun st item =>
      addLog env st (.inventoryItem item.name item.type item.weight item.usable)
        .info) newState
    addLog env newState (.goldAmount state.character.gold) .info

/-- `handleStats` from `game-engine.ts`: read-only character sheet. -/
def handleStats (env : Env) (state : GameState) : GameState :=
  let c := state.character
  let newState := addLog env state (.statsHeader c.name) .info
  let newState := addLog env newState
    (.statsProgress c.race c.className c.level c.experience) .info
  let newState := addLog env newState
    (.statsVitals c.hitPoints.current c.hitPoints.max c.armorClass c.gold) .info
  let newState := addLog env newState
    (.statsPhysical c.abilityScores c.abilityModifiers) .info
  addLog env newState (.statsMental c.abilityScores c.abilityModifiers) .info

/-- `processAction` from `game-engine.ts`: the reducer.  A dead
character blocks everything except `LOAD_GAME`; otherwise dispatch to the
per-action handler. -/
def processAction (env : Env) (fuel : Nat) (state : GameState)
    (action : GameAction) (k : Nat) : Except String (GameState × Nat) :=
  let isLoad := match action with
    | .loadGame _ => true
    | _ => false
  if !(isAlive state.character) && !isLoad then
    .ok (addLog env state .adventureOver .error, k)
  else
    match action with
    | .move direction => handleMove env fuel state direction k
    | .talk npcId => do
      let st ← handleTalk env state npcId
      .ok (st, k)
    | .dialogueSelect optionIndex =>
      .ok (handleDialogueSelect env state optionIndex k)
    | .take itemId => do
      let st ← handleTake env state itemId
      .ok (st, k)
    | .drop itemId => do
      let st ← handleDrop env state itemId
      .ok (st, k)
    | .use itemId => .ok (handleUse env state itemId k)
    | .attack targetId => handleAttack env fuel state targetId k
    | .defend => handleDefend env fuel state k
    | .flee => handleFlee env fuel state k
    | .buy itemId npcId => .ok (handleBuy env state itemId npcId, k)
    | .sell itemId npcId => .ok (handleSell env state itemId npcId, k)
    | .rest => .ok (handleRest env state, k)
    | .look => .ok (handleLook env state, k)
    | .inventory => .ok (handleInventory env state, k)
    | .stats => .ok (handleStats env state, k)
    | .saveGame => .ok (addLog env state .gameSaved .success, k)
    | .loadGame _ => .ok (addLog env state .gameLoaded .success, k)

/-! ## Verification support -/

/-- One enemy attack observed during `runEnemyTurns`: who attacked and
the armor class the attack was resolved against. -/
structure AttackRec where
  attackerId : String
  targetAC : Int
deriving DecidableEq, Repr

/-- `runEnemyTurns` instrumented with a ghost trace of the enemy attacks
it resolves (attacker id and the armor class handed to `enemyAttack`);
the state/counter component coincides with `runEnemyTurns`
(`runEnemyTurnsT_fst`). -/
def runEnemyTurnsT (env : Env) : Nat → GameState → Nat →
    Except String ((GameState × Nat) × List AttackRec)
  | 0, state, k => .ok ((state, k), [])
  | fuel + 1, state, k =>
    if state.combat.active && !(isPlayerTurn state.combat state.character.id) then
      let enemy : Option NPC := match getCurrentCombatant state.combat with
        | some currentId => state.combat.enemies.find? (fun e => e.id == currentId)
        | none => none
      match enemy with
      | none => runEnemyTurnsT env fuel
          { state with combat := nextTurn state.combat } k
      | some e =>
        match e.stats with
        | none => runEnemyTurnsT env fuel
            { state with combat := nextTurn state.combat } k
        | some stats =>
          if stats.hitPoints ≤ 0 then
            runEnemyTurnsT env fuel { state with combat := nextTurn state.combat } k
          else do
            let rec0 : AttackRec := ⟨e.id, state.character.armorClass⟩
            let (result, k1) ← enemyAttack env.rolls k e state.character
            let st1 := addLog env state result.message .combat
            if 0 < result.damage then
              let damagedCharacter := damageCharacter st1.character result.damage
              let st2 := { st1 with character := damagedCharacter }
              if !(isAlive damagedCharacter) then
                let st3 := addLog env st2 (.hasFallen st2.character.name) .error
                .ok (({ st3 with combat := emptyCombat }, k1), [rec0])
              else do
                let (out, trace) ← runEnemyTurnsT env fuel
                  { st2 with combat := nextTurn st2.combat } k1
                .ok (out, rec0 :: trace)
            else do
              let (out, trace) ← runEnemyTurnsT env fuel
                { st1 with combat := nextTurn st1.combat } k1
              .ok (out, rec0 :: trace)
    else .ok ((state, k), [])

/-- Combat states reachable from a given combat state by the two
mutations the engine applies mid-fight: `updateEnemyHP` and `nextTurn`. -/
inductive CombatReach : CombatState → CombatState → Prop
  | refl (c : CombatState) : CombatReach c c
  | hp (a b : CombatState) (enemyId : String) (damage : Int) :
      CombatReach a b → CombatReach a (updateEnemyHP b enemyId damage).combat
  | turn (a b : CombatState) :
      CombatReach a b → CombatReach a (nextTurn b)

/-- The action-time refusal branches of `processAction`: for
`Refusal s a m t ad` the reducer refuses action `a` in state `s`,
logging one entry with message `m` and severity `t` and leaving the
state otherwise unchanged except that the resulting active dialogue is
`ad` (which is `s.activeDialogue` everywhere except a failing MOVE,
which has already cleared it).  Each constructor embeds one guard of
`game-engine.ts`. -/
inductive Refusal : GameState → GameAction → GameMessage → LogType →
    Option ActiveDialogue → Prop
  | dead (s : GameState) (a : GameAction)
      (h : isAlive s.character = false)
      (hl : (match a with | .loadGame _ => true | _ => false) = false) :
      Refusal s a .adventureOver .error s.activeDialogue
  | moveInCombat (s : GameState) (d : String)
      (ha : isAlive s.character = true) (hc : s.combat.active = true) :
      Refusal s (.move d) .cannotMoveInCombat .warning s.activeDialogue
  | moveNoExit (s : GameState) (d : String) (loc : Location)
      (ha : isAlive s.character = true) (hc : s.combat.active = false)
      (hloc : recordGet s.locations s.currentLocationId = some loc)
      (hdir : getConnectedLocation loc d = none) :
      Refusal s (.move d) (.cannotGo d (getAvailableDirections loc)) .warning none
  | movePathNowhere (s : GameState) (d : String) (loc : Location) (tid : String)
      (ha : isAlive s.character = true) (hc : s.combat.active = false)
      (hloc : recordGet s.locations s.currentLocationId = some loc)
      (hdir : getConnectedLocation loc d = some tid)
      (htarget : recordGet s.locations tid = none) :
      Refusal s (.move d) .pathLeadsNowhere .error none
  | talkInCombat (s : GameState) (npcId : String)
      (ha : isAlive s.character = true) (hc : s.combat.active = true) :
      Refusal s (.talk npcId) .cannotTalkInCombat .warning s.activeDialogue
  | talkNoPerson (s : GameState) (npcId : String)
      (ha : isAlive s.character = true) (hc : s.combat.active = false)
      (hnpc : recordGet s.npcs npcId = none) :
      Refusal s (.talk npcId) .personNotExist .error s.activeDialogue
  | talkNotHere (s : GameState) (npcId : String) (npc : NPC) (loc : Location)
      (ha : isAlive s.character = true) (hc : s.combat.active = false)
      (hnpc : recordGet s.npcs npcId = some npc)
      (hloc : recordGet s.locations s.currentLocationId = some loc)
      (hmem : loc.npcs.contains npcId = false) :
      Refusal s (.talk npcId) (.npcNotHere npc.name) .warning s.activeDialogue
  | talkHostile (s : GameState) (npcId : String) (npc : NPC) (loc : Location)
      (ha : isAlive s.character = true) (hc : s.combat.active = false)
      (hnpc : recordGet s.npcs npcId = some npc)
      (hloc : recordGet s.locations s.currentLocationId = some loc)
      (hmem : loc.npcs.contains npcId = true)
      (hh : npc.hostile = true) :
      Refusal s (.talk npcId) (.npcHostile npc.name) .warning s.activeDialogue
  | dialogueNone (s : GameState) (i : Int)
      (ha : isAlive s.character = true)
      (hd : s.activeDialogue = none) :
      Refusal s (.dialogueSelect i) .notInConversation .warning s.activeDialogue
  | dialogueOutOfRange (s : GameState) (i : Int) (ad : ActiveDialogue)
      (npc : NPC) (node : DialogueNode)
      (ha : isAlive s.character = true)
      (hd : s.activeDialogue = some ad)
      (hnpc : recordGet s.npcs ad.npcId = some npc)
      (hi : i ≠ -1)
      (hnode : getDialogueNode npc ad.currentNodeId = some node)
      (hrange : i < 0 ∨ (node.options.length : Int) ≤ i) :
      Refusal s (.dialogueSelect i) (.chooseBetween node.options.length)
        .warning s.activeDialogue
  | takeInCombat (s : GameState) (itemId : String)
      (ha : isAlive s.character = true) (hc : s.combat.active = true) :
      Refusal s (.take itemId) .cannotTakeInCombat .warning s.activeDialogue
  | takeAbsent (s : GameState) (itemId : String) (loc : Location)
      (ha : isAlive s.character = true) (hc : s.combat.active = false)
      (hloc : recordGet s.locations s.currentLocationId = some loc)
      (hfind : loc.items.find? (fun i => i.id == itemId) = none) :
      Refusal s (.take itemId) .itemNotHere .warning s.activeDialogue
  | takeTooHeavy (s : GameState) (itemId : String) (loc : Location) (item : Item)
      (ha : isAlive s.character = true) (hc : s.combat.active = false)
      (hloc : recordGet s.locations s.currentLocationId = some loc)
      (hfind : loc.items.find? (fun i => i.id == itemId) = some item)
      (hover : s.character.inventory.maxWeight <
        s.character.inventory.currentWeight + item.weight) :
      Refusal s (.take itemId)
        (.cannotCarryTake item.name s.character.inventory.currentWeight
          s.character.inventory.maxWeight) .warning s.activeDialogue
  | dropInCombat (s : GameState) (itemId : String)
      (ha : isAlive s.character = true) (hc : s.combat.active = true) :
      Refusal s (.drop itemId) .cannotDropInCombat .warning s.activeDialogue
  | dropAbsent (s : GameState) (itemId : String)
      (ha : isAlive s.character = true) (hc : s.combat.active = false)
      (hfind : s.character.inventory.items.find? (fun i => i.id == itemId) = none) :
      Refusal s (.drop itemId) .dontHaveItem .warning s.activeDialogue
  | useAbsent (s : GameState) (itemId : String)
      (ha : isAlive s.character = true)
      (hfind : s.character.inventory.items.find? (fun i => i.id == itemId) = none) :
      Refusal s (.use itemId) .dontHaveItem .warning s.activeDialogue
  | useNotUsable (s : GameState) (itemId : String) (item : Item)
      (ha : isAlive s.character = true)
      (hfind : s.character.inventory.items.find? (fun i => i.id == itemId) = some item)
      (hu : item.usable = false) :
      Refusal s (.use itemId) (.cantUse item.name) .warning s.activeDialogue
  | attackNoTarget (s : GameState) (targetId : String)
      (ha : isAlive s.character = true) (hc : s.combat.active = false)
      (hnpc : recordGet s.npcs targetId = none) :
      Refusal s (.attack targetId) .targetNotExist .error s.activeDialogue
  | attackNoStats (s : GameState) (targetId : String) (npc : NPC)
      (ha : isAlive s.character = true) (hc : s.combat.active = false)
      (hnpc : recordGet s.npcs targetId = some npc)
      (hst : npc.stats = none) :
      Refusal s (.attack targetId) (.cannotAttack npc.name) .warning s.activeDialogue
  | attackNotYourTurn (s : GameState) (targetId : String)
      (ha : isAlive s.character = true) (hc : s.combat.active = true)
      (ht : isPlayerTurn s.combat s.character.id = false) :
      Refusal s (.attack targetId) .notYourTurn .warning s.activeDialogue
  | attackNotInFight (s : GameState) (targetId : String)
      (ha : isAlive s.character = true) (hc : s.combat.active = true)
      (ht : isPlayerTurn s.combat s.character.id = true)
      (hfind : s.combat.enemies.find? (fun e => e.id == targetId) = none) :
      Refusal s (.attack targetId) .enemyNotInFight .warning s.activeDialogue
  | defendNotInCombat (s : GameState)
      (ha : isAlive s.character = true) (hc : s.combat.active = false) :
      Refusal s .defend .notInCombat .warning s.activeDialogue
  | defendNotYourTurn (s : GameState)
      (ha : isAlive s.character = true) (hc : s.combat.active = true)
      (ht : isPlayerTurn s.combat s.character.id = false) :
      Refusal s .defend .notYourTurn .warning s.activeDialogue
  | fleeNotInCombat (s : GameState)
      (ha : isAlive s.character = true) (hc : s.combat.active = false) :
      Refusal s .flee .notInCombatFlee .warning s.activeDialogue
  | buyInCombat (s : GameState) (itemId npcId : String)
      (ha : isAlive s.character = true) (hc : s.combat.active = true) :
      Refusal s (.buy itemId npcId) .cannotBuyInCombat .warning s.activeDialogue
  | buyNoNpc (s : GameState) (itemId npcId : String)
      (ha : isAlive s.character = true) (hc : s.combat.active = false)
      (hnpc : recordGet s.npcs npcId = none) :
      Refusal s (.buy itemId npcId) .merchantNoShop .warning s.activeDialogue
  | buyNoShop (s : GameState) (itemId npcId : String) (npc : NPC)
      (ha : isAlive s.character = true) (hc : s.combat.active = false)
      (hnpc : recordGet s.npcs npcId = some npc)
      (hshop : npc.shop = none) :
      Refusal s (.buy itemId npcId) .merchantNoShop .warning s.activeDialogue
  | buyNotListed (s : GameState) (itemId npcId : String) (npc : NPC)
      (shop : ShopInventory)
      (ha : isAlive s.character = true) (hc : s.combat.active = false)
      (hnpc : recordGet s.npcs npcId = some npc)
      (hshop : npc.shop = some shop)
      (hfind : shop.items.find? (fun i => i.id == itemId) = none) :
      Refusal s (.buy itemId npcId) .notForSale .warning s.activeDialogue
  | buyNoGold (s : GameState) (itemId npcId : String) (npc : NPC)
      (shop : ShopInventory) (item : Item)
      (ha : isAlive s.character = true) (hc : s.combat.active = false)
      (hnpc : recordGet s.npcs npcId = some npc)
      (hshop : npc.shop = some shop)
      (hfind : shop.items.find? (fun i => i.id == itemId) = some item)
      (hg : s.character.gold < ((item.value : Rat) * shop.buyMultiplier).ceil) :
      Refusal s (.buy itemId npcId)
        (.cannotAfford item.name (((item.value : Rat) * shop.buyMultiplier).ceil)
          s.character.gold) .warning s.activeDialogue
  | buyTooHeavy (s : GameState) (itemId npcId : String) (npc : NPC)
      (shop : ShopInventory) (item : Item)
      (ha : isAlive s.character = true) (hc : s.combat.active = false)
      (hnpc : recordGet s.npcs npcId = some npc)
      (hshop : npc.shop = some shop)
      (hfind : shop.items.find? (fun i => i.id == itemId) = some item)
      (hg : ((item.value : Rat) * shop.buyMultiplier).ceil ≤ s.character.gold)
      (hover : s.character.inventory.maxWeight <
        s.character.inventory.currentWeight + item.weight) :
      Refusal s (.buy itemId npcId) (.tooHeavyToBuy item.name) .warning
        s.activeDialogue
  | sellInCombat (s : GameState) (itemId npcId : String)
      (ha : isAlive s.character = true) (hc : s.combat.active = true) :
      Refusal s (.sell itemId npcId) .cannotSellInCombat .warning s.activeDialogue
  | sellNoNpc (s : GameState) (itemId npcId : String)
      (ha : isAlive s.character = true) (hc : s.combat.active = false)
      (hnpc : recordGet s.npcs npcId = none) :
      Refusal s (.sell itemId npcId) .personNoBuy .warning s.activeDialogue
  | sellNoShop (s : GameState) (itemId npcId : String) (npc : NPC)
      (ha : isAlive s.character = true) (hc : s.combat.active = false)
      (hnpc : recordGet s.npcs npcId = some npc)
      (hshop : npc.shop = none) :
      Refusal s (.sell itemId npcId) .personNoBuy .warning s.activeDialogue
  | sellAbsent (s : GameState) (itemId npcId : String) (npc : NPC)
      (shop : ShopInventory)
      (ha : isAlive s.character = true) (hc : s.combat.active = false)
      (hnpc : recordGet s.npcs npcId = some npc)
      (hshop : npc.shop = some shop)
      (hfind : s.character.inventory.items.find? (fun i => i.id == itemId) = none) :
      Refusal s (.sell itemId npcId) .dontHaveItem .warning s.activeDialogue
  | restInCombat (s : GameState)
      (ha : isAlive s.character = true) (hc : s.combat.active = true) :
      Refusal s .rest .cannotRestInCombat .warning s.activeDialogue
  | restNotSafe (s : GameState)
      (ha : isAlive s.character = true) (hc : s.combat.active = false)
      (hr : REST_LOCATIONS.contains s.currentLocationId = false) :
      Refusal s .rest .notSafeToRest .warning s.activeDialogue
  | restFullHealth (s : GameState)
      (ha : isAlive s.character = true) (hc : s.combat.active = false)
      (hr : REST_LOCATIONS.contains s.currentLocationId = true)
      (hf : s.character.hitPoints.max ≤ s.character.hitPoints.current) :
      Refusal s .rest .alreadyFullHealth .info s.activeDialogue

/-! ### Concrete sample worlds (used by witnesses and counterexamples) -/

/-- Deterministic sample environment: every raw draw is 9 (a d20 roll of
10), the clock reads 77, dialogue callbacks are the identity. -/
def env0 : Env := ⟨fun _ => 9, 77, fun _ s => s⟩

/-- All-zero ability modifiers. -/
def mods0 : AbilityModifiers := ⟨0, 0, 0, 0, 0, 0⟩

/-- All-ten ability scores. -/
def abil0 : AbilityScores := ⟨10, 10, 10, 10, 10, 10⟩

/-- A plain level-1 fighter at 10/10 HP with an empty inventory. -/
def baseHero : Character :=
  { id := "hero", name := "Aldric", race := "Human", className := "Fighter"
  , level := 1, experience := 0, hitPoints := ⟨10, 10⟩
  , abilityScores := abil0, abilityModifiers := mods0
  , inventory := ⟨[], 150, 0⟩, gold := 0, armorClass := 10 }

/-- A usable healing potion (category `potion`). -/
def healingPotion : Item :=
  ⟨"potion-1", "Healing Potion", "A red potion.", 1/2, 50, .potion, true⟩

/-- A usable item that is not a potion. -/
def luckyCharm : Item :=
  ⟨"charm-1", "Lucky Charm", "A dried rabbit foot.", 1/10, 5, .misc, true⟩

/-- A 1-HP hostile enemy with armor class 1 (any hit defeats it). -/
def skeletonNPC : NPC :=
  { id := "skeleton-warrior", name := "Skeleton Warrior"
  , description := "Animated bones.", dialogue := [], hostile := true
  , stats := some ⟨1, 1, 0, ⟨1, 4, 0⟩⟩ }

/-- A location with no exits containing the skeleton. -/
def crypt : Location :=
  { id := "crypt", name := "Crypt", description := "A dark crypt."
  , connections := {}, npcs := ["skeleton-warrior"], items := [], visited := true }

/-- Out-of-combat state in the crypt with the skeleton present. -/
def sSkel : GameState :=
  { character := baseHero, currentLocationId := "crypt"
  , locations := [("crypt", crypt)], npcs := [("skeleton-warrior", skeletonNPC)]
  , quests := [], combat := emptyCombat, activeDialogue := none
  , gameLog := [], timestamp := 0 }

/-- A friendly NPC whose dialogue list contains an `encounter` node
*before* its `greeting` node; both have options. -/
def bobNPC : NPC :=
  { id := "bob", name := "Bob", description := "A wary villager."
  , dialogue :=
      [ ⟨"encounter", "Who goes there?", [⟨"Just a traveler.", none, none, none⟩], none⟩
      , ⟨"greeting", "Hello, friend!", [⟨"Hi there.", none, none, none⟩], none⟩ ]
  , hostile := false }

/-- A location with no exits containing Bob. -/
def plaza : Location :=
  { id := "plaza", name := "Plaza", description := "A small plaza."
  , connections := {}, npcs := ["bob"], items := [], visited := true }

/-- Out-of-combat state at the plaza with Bob present. -/
def sBob : GameState :=
  { character := baseHero, currentLocationId := "plaza"
  , locations := [("plaza", plaza)], npcs := [("bob", bobNPC)]
  , quests := [], combat := emptyCombat, activeDialogue := none
  , gameLog := [], timestamp := 0 }

/-- `sBob` with a dialogue in progress (for the failing-MOVE scenario:
the plaza has no exits). -/
def sC4 : GameState :=
  { sBob with activeDialogue := some ⟨"bob", "encounter"⟩ }

/-- A longsword of value 15 sold by the merchant. -/
def shopSword : Item :=
  ⟨"shop-sword", "Longsword", "A well-balanced longsword.", 3, 15, .weapon, false⟩

/-- A gem of value 15 held by the player. -/
def rubyGem : Item :=
  ⟨"gem-1", "Ruby", "A deep-red gem.", 1/10, 15, .treasure, false⟩

/-- A shop stocking the longsword, buying at ×1.5 and selling at ×0.5
of value. -/
def merchantShop : ShopInventory := ⟨[shopSword], 3/2, 1/2⟩

/-- A shopkeeper carrying `merchantShop`. -/
def merchantNPC : NPC :=
  { id := "merchant", name := "Mira the Merchant", description := "A trader."
  , dialogue := [], hostile := false
  , shop := some merchantShop }

/-- A market location with the merchant. -/
def market : Location :=
  { id := "market", name := "Market", description := "A bustling market."
  , connections := {}, npcs := ["merchant"], items := [healingPotion]
  , visited := true }

/-- Out-of-combat state at the market: 100 gold, the gem held. -/
def sShop : GameState :=
  { character := { baseHero with gold := 100, inventory := ⟨[rubyGem], 150, 1/10⟩ }
  , currentLocationId := "market"
  , locations := [("market", market)], npcs := [("merchant", merchantNPC)]
  , quests := [], combat := emptyCombat, activeDialogue := none
  , gameLog := [], timestamp := 0 }

/-- A 5-HP goblin with armor class 10. -/
def goblinNPC : NPC :=
  { id := "goblin", name := "Goblin", description := "A sneering goblin."
  , dialogue := [], hostile := true
  , stats := some ⟨5, 10, 0, ⟨1, 4, 0⟩⟩ }

/-- An active combat against the goblin, player first in the turn
order. -/
def combat0 : CombatState :=
  { active := true, enemies := [goblinNPC], enemyMaxHPs := [("goblin", 5)]
  , totalEnemyCount := 1, turnOrder := ["hero", "goblin"]
  , currentTurnIndex := 0, round := 1 }

/-- Mid-combat state (player at 5/10 HP, holding a potion and a charm)
on the player's turn. -/
def sCombat : GameState :=
  { character := { baseHero with
      hitPoints := ⟨5, 10⟩
      inventory := ⟨[healingPotion, luckyCharm], 150, 3/5⟩ }
  , currentLocationId := "crypt"
  , locations := [("crypt", crypt)], npcs := [("goblin", goblinNPC)]
  , quests := [], combat := combat0, activeDialogue := none
  , gameLog := [], timestamp := 0 }

/-! ## Theorems -/

/-- `addLog` only appends to the log and refreshes the timestamp. -/
@[simp] theorem addLog_character (env : Env) (s : GameState) (m : GameMessage)
    (t : LogType) : (addLog env s m t).character = s.character := rfl

@[simp] theorem addLog_combat (env : Env) (s : GameState) (m : GameMessage)
    (t : LogType) : (addLog env s m t).combat = s.combat := rfl

@[simp] theorem addLog_locations (env : Env) (s : GameState) (m : GameMessage)
    (t : LogType) : (addLog env s m t).locations = s.locations := rfl

@[simp] theorem addLog_npcs (env : Env) (s : GameState) (m : GameMessage)
    (t : LogType) : (addLog env s m t).npcs = s.npcs := rfl

@[simp] theorem addLog_activeDialogue (env : Env) (s : GameState)
    (m : GameMessage) (t : LogType) :
    (addLog env s m t).activeDialogue = s.activeDialogue := rfl

@[simp] theorem addLog_currentLocationId (env : Env) (s : GameState)
    (m : GameMessage) (t : LogType) :
    (addLog env s m t).currentLocationId = s.currentLocationId := rfl

@[simp] theorem addLog_quests (env : Env) (s : GameState) (m : GameMessage)
    (t : LogType) : (addLog env s m t).quests = s.quests := rfl

/-- `healCharacter` only changes current HP. -/
@[simp] theorem healCharacter_max (c : Character) (a : Int) :
    (healCharacter c a).hitPoints.max = c.hitPoints.max := rfl

/-- `damageCharacter` only changes current HP. -/
@[simp] theorem damageCharacter_max (c : Character) (a : Int) :
    (damageCharacter c a).hitPoints.max = c.hitPoints.max := rfl

@[simp] theorem damageCharacter_armorClass (c : Character) (a : Int) :
    (damageCharacter c a).armorClass = c.armorClass := rfl

/-- C6: for `0 ≤ current ≤ max` and a non-negative amount, both
`healCharacter` and `damageCharacter` return hit points satisfying
`0 ≤ current ≤ max` (damage beyond current HP clamps to 0, healing
beyond the deficit clamps to max), and neither changes any other field
of the character (the embedding is pure, so the input value itself is
untouched). -/
theorem C6_heal_damage_clamp (c : Character) (amount : Int)
    (h0 : 0 ≤ c.hitPoints.current) (h1 : c.hitPoints.current ≤ c.hitPoints.max)
    (h2 : 0 ≤ amount) :
    (0 ≤ (healCharacter c amount).hitPoints.current ∧
      (healCharacter c amount).hitPoints.current ≤
        (healCharacter c amount).hitPoints.max) ∧
    (0 ≤ (damageCharacter c amount).hitPoints.current ∧
      (damageCharacter c amount).hitPoints.current ≤
        (damageCharacter c amount).hitPoints.max) ∧
    healCharacter c amount =
      { c with hitPoints := ⟨(healCharacter c amount).hitPoints.current,
          c.hitPoints.max⟩ } ∧
    damageCharacter c amount =
      { c with hitPoints := ⟨(damageCharacter c amount).hitPoints.current,
          c.hitPoints.max⟩ } := by
  unfold healCharacter damageCharacter
  refine ⟨⟨?_, ?_⟩, ⟨?_, ?_⟩, rfl, rfl⟩ <;> simp <;> omega

/-- C6 witness: the level-1 fighter at 10/10 HP, healed or damaged by
25, stays within `[0, 10]`. -/
theorem C6_heal_damage_clamp_witness :
    (0 ≤ baseHero.hitPoints.current ∧
      baseHero.hitPoints.current ≤ baseHero.hitPoints.max ∧ (0 : Int) ≤ 25) ∧
    (0 ≤ (healCharacter baseHero 25).hitPoints.current ∧
      (healCharacter baseHero 25).hitPoints.current ≤
        (healCharacter baseHero 25).hitPoints.max) ∧
    (0 ≤ (damageCharacter baseHero 25).hitPoints.current ∧
      (damageCharacter baseHero 25).hitPoints.current ≤
        (damageCharacter baseHero 25).hitPoints.max) := by
  refine ⟨⟨by decide, by decide, by decide⟩, ?_, ?_⟩
  · exact (C6_heal_damage_clamp baseHero 25 (by decide) (by decide) (by decide)).1
  · exact (C6_heal_damage_clamp baseHero 25 (by decide) (by decide) (by decide)).2.1

/-- C1: refuted by evaluation — a player attack that wins the combat
settles rewards (100 XP and gold for the one enemy, combat reset to
inactive) yet leaves the defeated enemy's id in the location's NPC list.
`handleCombatVictory` computes `defeatedIds` from `state.combat.enemies`,
but `updateEnemyHP` has already removed every defeated enemy from that
list, so at victory it is empty and no location is ever pruned
(contradicting the source's own comment at that site). -/
theorem C1_defeated_enemy_not_removed :
    (processAction env0 5 sSkel (.attack "skeleton-warrior") 0).map
      (fun p => (p.1.combat.active, p.1.character.experience,
        p.1.character.gold,
        (recordGet p.1.locations "crypt").map (fun l => l.npcs))) =
    .ok (false, 100, 19, some ["skeleton-warrior"]) := by rfl

/-- C2: for a held usable item, `USE` of a potion heals by
`r1 + r2 + 2` where `r1`, `r2` are the two consecutive `rollDice(4)`
draws (each in `[1, 4]`, i.e. 2d4+2), clamps at max HP, removes the
potion at its first-match index and reduces the carried weight by its
weight; a held usable non-potion item produces only the flavor log
entry, with no other state change and no dice consumed. -/
theorem C2_use_potion_heals_consumes (env : Env) (s : GameState)
    (itemId : String) (k : Nat) (item : Item)
    (hfind : s.character.inventory.items.find? (fun i => i.id == itemId) = some item)
    (husable : item.usable = true) :
    (item.type = .potion →
      1 ≤ rollDice env.rolls k 4 ∧ rollDice env.rolls k 4 ≤ 4 ∧
      1 ≤ rollDice env.rolls (k + 1) 4 ∧ rollDice env.rolls (k + 1) 4 ≤ 4 ∧
      (healCharacter s.character
          (rollDice env.rolls k 4 + rollDice env.rolls (k + 1) 4 + 2)).hitPoints.current =
        min s.character.hitPoints.max
          (s.character.hitPoints.current +
            (rollDice env.rolls k 4 + rollDice env.rolls (k + 1) 4 + 2)) ∧
      handleUse env s itemId k =
        (addLog env
          { s with character :=
            { healCharacter s.character
                (rollDice env.rolls k 4 + rollDice env.rolls (k + 1) 4 + 2) with
              inventory := { s.character.inventory with
                items := s.character.inventory.items.eraseIdx
                  (s.character.inventory.items.findIdx (fun i => i.id == itemId))
                currentWeight :=
                  s.character.inventory.currentWeight - item.weight } } }
          (.useHeal item.name
            (rollDice env.rolls k 4 + rollDice env.rolls (k + 1) 4 + 2)
            (healCharacter s.character
              (rollDice env.rolls k 4 + rollDice env.rolls (k + 1) 4 + 2)).hitPoints.current
            s.character.hitPoints.max) .success, k + 2)) ∧
    (item.type ≠ .potion →
      handleUse env s itemId k = (addLog env s (.useNothing item.name) .info, k)) := by
  constructor
  · intro htype
    refine ⟨?_, ?_, ?_, ?_, rfl, ?_⟩
    · simp only [rollDice, Int.ofNat_eq_natCast]; omega
    · simp only [rollDice, Int.ofNat_eq_natCast]; omega
    · simp only [rollDice, Int.ofNat_eq_natCast]; omega
    · simp only [rollDice, Int.ofNat_eq_natCast]; omega
    · simp only [handleUse, hfind, husable, htype]
      rfl
  · intro htype
    simp only [handleUse, hfind, husable]
    simp [htype]

/-- C2 witness: at 5/10 HP with draws of 2 and 2 (heal 6, clamped to
10), the potion is consumed (weight 3/5 − 1/2 = 1/10); the charm only
logs. -/
theorem C2_use_potion_heals_consumes_witness :
    handleUse env0 sCombat "charm-1" 0 =
      (addLog env0 sCombat (.useNothing "Lucky Charm") .info, 0) ∧
    (handleUse env0 sCombat "potion-1" 0).1.character.hitPoints.current = 10 ∧
    (handleUse env0 sCombat "potion-1" 0).1.character.inventory.items = [luckyCharm] ∧
    (handleUse env0 sCombat "potion-1" 0).1.character.inventory.currentWeight =
      sCombat.character.inventory.currentWeight - healingPotion.weight := by
  refine ⟨?_, by rfl, by rfl, by rfl⟩
  exact (C2_use_potion_heals_consumes env0 sCombat "charm-1" 0 luckyCharm
    (by rfl) (by rfl)).2 (by decide)

/-- Projections of a combat-only state update. -/
@[simp] theorem setCombat_character (s : GameState) (c' : CombatState) :
    ({ s with combat := c' } : GameState).character = s.character := rfl

/-- C10: with a living character, `USE` always dispatches to
`handleUse` (which never tests the combat flag, so it is never refused
for being in combat), the result's entire combat sub-state equals the
input's, and `handleUse` is invariant under any replacement of the
combat sub-state (its outcome cannot depend on it): no turn is spent and
no enemy acts. -/
theorem C10_use_ignores_combat (env : Env) (fuel : Nat) (s : GameState)
    (itemId : String) (k : Nat) (halive : isAlive s.character = true) :
    processAction env fuel s (.use itemId) k = .ok (handleUse env s itemId k) ∧
    (handleUse env s itemId k).1.combat = s.combat ∧
    ∀ c' : CombatState, handleUse env { s with combat := c' } itemId k =
      ({ (handleUse env s itemId k).1 with combat := c' },
        (handleUse env s itemId k).2) := by
  refine ⟨?_, ?_, ?_⟩
  · simp [processAction, halive]
  · simp only [handleUse]
    cases hfind : s.character.inventory.items.find? (fun i => i.id == itemId) with
    | none => rfl
    | some item =>
      by_cases hu : item.usable
      · by_cases ht : item.type = .potion
        · simp [hu, ht]
        · simp [hu, ht]
      · simp [hu]
  · intro c'
    simp only [handleUse, setCombat_character]
    cases hfind : s.character.inventory.items.find? (fun i => i.id == itemId) with
    | none => rfl
    | some item =>
      by_cases hu : item.usable
      · by_cases ht : item.type = .potion
        · simp [hu, ht]; rfl
        · simp [hu, ht]; rfl
      · simp [hu]; rfl

/-- C10 witness: drinking the potion mid-fight at `sCombat` leaves the
whole combat sub-state (flag, enemies, max-HP table, count, turn order,
cursor, round) exactly `combat0`. -/
theorem C10_use_ignores_combat_witness :
    processAction env0 3 sCombat (.use "potion-1") 0 =
      .ok (handleUse env0 sCombat "potion-1" 0) ∧
    (handleUse env0 sCombat "potion-1" 0).1.combat = sCombat.combat := by
  exact ⟨(C10_use_ignores_combat env0 3 sCombat "potion-1" 0 (by rfl)).1,
    (C10_use_ignores_combat env0 3 sCombat "potion-1" 0 (by rfl)).2.1⟩

/-- C3 counterexample: Bob's dialogue list holds an `encounter` node
before a `greeting` node, and both have options.  The claim's preference
order demands the conversation start at `greeting`; the engine starts it
at `encounter` (first in list order), refuting the claim as stated. -/
theorem C3_preference_order_counterexample :
    (handleTalk env0 sBob "bob").map (fun st => st.activeDialogue) =
      .ok (some ⟨"bob", "encounter"⟩) ∧
    bobNPC.dialogue.find? (fun n => n.id == "greeting") =
      some ⟨"greeting", "Hello, friend!", [⟨"Hi there.", none, none, none⟩], none⟩ := by
  exact ⟨rfl, rfl⟩

/-- C3 (amended): for a non-hostile NPC present at the current location
out of combat, `TALK` starts the conversation at the *first node in the
NPC's dialogue list* whose id is `"greeting"`, `"encounter"` or
`"combat"` (list order, not a preference order); if that node has
options, active dialogue is set to that NPC and node id (after logging
the line and the option list), otherwise only the line is logged. -/
theorem C3_talk_starts_first_listed (env : Env) (s : GameState)
    (npcId : String) (npc : NPC) (loc : Location) (node : DialogueNode)
    (hc : s.combat.active = false)
    (hnpc : recordGet s.npcs npcId = some npc)
    (hloc : recordGet s.locations s.currentLocationId = some loc)
    (hmem : loc.npcs.contains npcId = true)
    (hh : npc.hostile = false)
    (hstart : npc.dialogue.find? (fun n =>
      n.id == "greeting" || n.id == "encounter" || n.id == "combat") = some node) :
    (node.options.length ≠ 0 →
      handleTalk env s npcId = .ok
        { addLog env (addLog env s (.npcSays npc.name node.text) .dialogue)
            (.optionsList (node.options.map (fun o => o.text))) .dialogue with
          activeDialogue := some ⟨npcId, node.id⟩ }) ∧
    (node.options.length = 0 →
      handleTalk env s npcId =
        .ok (addLog env s (.npcSays npc.name node.text) .dialogue)) := by
  have hmem' : npcId ∈ loc.npcs := by simpa using hmem
  constructor <;> intro hopts <;>
    simp [handleTalk, hc, hnpc, hloc, hmem', isHostile, hh,
      getStartingDialogue, hstart, hopts]

/-- C3 witness: talking to Bob starts at his first listed start node
(`encounter`), which has options, so dialogue mode is entered there. -/
theorem C3_talk_starts_first_listed_witness :
    handleTalk env0 sBob "bob" = .ok
      { addLog env0 (addLog env0 sBob (.npcSays "Bob" "Who goes there?") .dialogue)
          (.optionsList ["Just a traveler."]) .dialogue with
        activeDialogue := some ⟨"bob", "encounter"⟩ } := by
  exact (C3_talk_starts_first_listed env0 sBob "bob" bobNPC plaza
    ⟨"encounter", "Who goes there?", [⟨"Just a traveler.", none, none, none⟩], none⟩
    rfl rfl rfl rfl rfl rfl).1 (by decide)

/-- C4 counterexample: with a dialogue in progress, a MOVE in an
unmapped direction is an action-time failure (warning logged), yet the
returned state is *not* the input state plus a log entry: the active
dialogue has been cleared, refuting the claim's "no partial effects" for
this very input. -/
theorem C4_move_failure_clears_dialogue :
    (processAction env0 0 sC4 (.move "north") 0).map
      (fun p => p.1.activeDialogue) = .ok none ∧
    sC4.activeDialogue = some ⟨"bob", "encounter"⟩ := ⟨rfl, rfl⟩

/-- Projections of a dialogue-only state update. -/
@[simp] theorem setAD_locations (s : GameState) (ad : Option ActiveDialogue) :
    ({ s with activeDialogue := ad } : GameState).locations = s.locations := rfl

@[simp] theorem setAD_character (s : GameState) (ad : Option ActiveDialogue) :
    ({ s with activeDialogue := ad } : GameState).character = s.character := rfl

@[simp] theorem setAD_combat (s : GameState) (ad : Option ActiveDialogue) :
    ({ s with activeDialogue := ad } : GameState).combat = s.combat := rfl

@[simp] theorem setAD_npcs (s : GameState) (ad : Option ActiveDialogue) :
    ({ s with activeDialogue := ad } : GameState).npcs = s.npcs := rfl

@[simp] theorem setAD_currentLocationId (s : GameState) (ad : Option ActiveDialogue) :
    ({ s with activeDialogue := ad } : GameState).currentLocationId =
      s.currentLocationId := rfl

@[simp] theorem setAD_gameLog (s : GameState) (ad : Option ActiveDialogue) :
    ({ s with activeDialogue := ad } : GameState).gameLog = s.gameLog := rfl

@[simp] theorem setAD_quests (s : GameState) (ad : Option ActiveDialogue) :
    ({ s with activeDialogue := ad } : GameState).quests = s.quests := rfl

@[simp] theorem setAD_timestamp (s : GameState) (ad : Option ActiveDialogue) :
    ({ s with activeDialogue := ad } : GameState).timestamp = s.timestamp := rfl

/-- Monadic bind on an `Except.ok` reduces to application. -/
@[simp] theorem exceptBind_ok {ε α β : Type} (x : α) (f : α → Except ε β) :
    (Except.ok (ε := ε) x >>= f) = f x := rfl

/-- `Except.map` on an `Except.ok` reduces to application. -/
@[simp] theorem exceptMap_ok {ε α β : Type} (x : α) (f : α → β) :
    Except.map f (Except.ok (ε := ε) x) = .ok (f x) := rfl

/-- C4 (amended): every action-time refusal branch of the reducer (dead
state, wrong combat phase, insufficient gold or capacity, entity not
present, out-of-range dialogue option, unsafe or unnecessary rest)
returns the input state unchanged except for the one appended log entry
of the stated severity and the refreshed timestamp — except that a MOVE
failing on an unmapped direction or a dangling destination has already
cleared any active dialogue (the clearing precedes direction
validation). -/
theorem C4_refusals_log_only (env : Env) (fuel : Nat) (s : GameState)
    (a : GameAction) (m : GameMessage) (t : LogType)
    (ad : Option ActiveDialogue) (h : Refusal s a m t ad) (k : Nat) :
    processAction env fuel s a k =
      .ok ({ s with
        gameLog := s.gameLog ++ [⟨m, t⟩]
        timestamp := env.now
        activeDialogue := ad }, k) := by
  induction h with
  | dead a h hl =>
    simp [processAction, h, hl, addLog, createLogEntry]
  | moveInCombat d ha hc =>
    simp [processAction, ha, handleMove, hc, addLog, createLogEntry]
  | moveNoExit d loc ha hc hloc hdir =>
    cases hd : s.activeDialogue <;>
      simp [processAction, ha, handleMove, hc, hd, hloc, hdir, addLog, createLogEntry]
  | movePathNowhere d loc tid ha hc hloc hdir htarget =>
    cases hd : s.activeDialogue <;>
      simp [processAction, ha, handleMove, hc, hd, hloc, hdir, htarget,
        addLog, createLogEntry]
  | talkInCombat npcId ha hc =>
    simp [processAction, ha, handleTalk, hc, addLog, createLogEntry]
  | talkNoPerson npcId ha hc hnpc =>
    simp [processAction, ha, handleTalk, hc, hnpc, addLog, createLogEntry]
  | talkNotHere npcId npc loc ha hc hnpc hloc hmem =>
    have hmem' : npcId ∉ loc.npcs := by simpa using hmem
    simp [processAction, ha, handleTalk, hc, hnpc, hloc, hmem',
      addLog, createLogEntry]
  | talkHostile npcId npc loc ha hc hnpc hloc hmem hh =>
    have hmem' : npcId ∈ loc.npcs := by simpa using hmem
    simp [processAction, ha, handleTalk, hc, hnpc, hloc, hmem', isHostile, hh,
      addLog, createLogEntry]
  | dialogueNone i ha hd =>
    simp [processAction, ha, handleDialogueSelect, hd, addLog, createLogEntry]
  | dialogueOutOfRange i ad npc node ha hd hnpc hi hnode hrange =>
    simp [processAction, ha, handleDialogueSelect, hd, hnpc, hi, hnode, hrange,
      addLog, createLogEntry]
  | takeInCombat itemId ha hc =>
    simp [processAction, ha, handleTake, hc, addLog, createLogEntry]
  | takeAbsent itemId loc ha hc hloc hfind =>
    simp [processAction, ha, handleTake, hc, hloc, hfind, addLog, createLogEntry]
  | takeTooHeavy itemId loc item ha hc hloc hfind hover =>
    simp [processAction, ha, handleTake, hc, hloc, hfind, hover,
      addLog, createLogEntry]
  | dropInCombat itemId ha hc =>
    simp [processAction, ha, handleDrop, hc, addLog, createLogEntry]
  | dropAbsent itemId ha hc hfind =>
    simp [processAction, ha, handleDrop, hc, hfind, addLog, createLogEntry]
  | useAbsent itemId ha hfind =>
    simp [processAction, ha, handleUse, hfind, addLog, createLogEntry]
  | useNotUsable itemId item ha hfind hu =>
    simp [processAction, ha, handleUse, hfind, hu, addLog, createLogEntry]
  | attackNoTarget targetId ha hc hnpc =>
    simp [processAction, ha, handleAttack, hc, hnpc, addLog, createLogEntry]
  | attackNoStats targetId npc ha hc hnpc hst =>
    simp [processAction, ha, handleAttack, hc, hnpc, hst, addLog, createLogEntry]
  | attackNotYourTurn targetId ha hc ht =>
    simp [processAction, ha, handleAttack, hc, ht, addLog, createLogEntry]
  | attackNotInFight targetId ha hc ht hfind =>
    simp [processAction, ha, handleAttack, hc, ht, processPlayerAttack, hfind,
      addLog, createLogEntry]
  | defendNotInCombat ha hc =>
    simp [processAction, ha, handleDefend, hc, addLog, createLogEntry]
  | defendNotYourTurn ha hc ht =>
    simp [processAction, ha, handleDefend, hc, ht, addLog, createLogEntry]
  | fleeNotInCombat ha hc =>
    simp [processAction, ha, handleFlee, hc, addLog, createLogEntry]
  | buyInCombat itemId npcId ha hc =>
    simp [processAction, ha, handleBuy, hc, addLog, createLogEntry]
  | buyNoNpc itemId npcId ha hc hnpc =>
    simp [processAction, ha, handleBuy, hc, hnpc, addLog, createLogEntry]
  | buyNoShop itemId npcId npc ha hc hnpc hshop =>
    simp [processAction, ha, handleBuy, hc, hnpc, hshop, addLog, createLogEntry]
  | buyNotListed itemId npcId npc shop ha hc hnpc hshop hfind =>
    simp [processAction, ha, handleBuy, hc, hnpc, hshop, hfind,
      addLog, createLogEntry]
  | buyNoGold itemId npcId npc shop item ha hc hnpc hshop hfind hg =>
    simp [processAction, ha, handleBuy, hc, hnpc, hshop, hfind, hg,
      addLog, createLogEntry]
  | buyTooHeavy itemId npcId npc shop item ha hc hnpc hshop hfind hg hover =>
    simp [processAction, ha, handleBuy, hc, hnpc, hshop, hfind, not_lt.mpr hg,
      hover, addLog, createLogEntry]
  | sellInCombat itemId npcId ha hc =>
    simp [processAction, ha, handleSell, hc, addLog, createLogEntry]
  | sellNoNpc itemId npcId ha hc hnpc =>
    simp [processAction, ha, handleSell, hc, hnpc, addLog, createLogEntry]
  | sellNoShop itemId npcId npc ha hc hnpc hshop =>
    simp [processAction, ha, handleSell, hc, hnpc, hshop, addLog, createLogEntry]
  | sellAbsent itemId npcId npc shop ha hc hnpc hshop hfind =>
    simp [processAction, ha, handleSell, hc, hnpc, hshop, hfind,
      addLog, createLogEntry]
  | restInCombat ha hc =>
    simp [processAction, ha, handleRest, hc, addLog, createLogEntry]
  | restNotSafe ha hc hr =>
    have hr' : s.currentLocationId ∉ REST_LOCATIONS := by simpa using hr
    simp [processAction, ha, handleRest, hc, hr', addLog, createLogEntry]
  | restFullHealth ha hc hr hf =>
    have hr' : s.currentLocationId ∈ REST_LOCATIONS := by simpa using hr
    simp [processAction, ha, handleRest, hc, hr', hf, addLog, createLogEntry]

/-- C4 witness: the refusal of MOVE "north" at the exit-less plaza with
a dialogue active appends exactly one warning entry and clears the
dialogue. -/
theorem C4_refusals_log_only_witness :
    processAction env0 0 sC4 (.move "north") 0 =
      .ok ({ sC4 with
        gameLog := sC4.gameLog ++ [⟨.cannotGo "north" [], .warning⟩]
        timestamp := 77
        activeDialogue := none }, 0) := by
  exact C4_refusals_log_only env0 0 sC4 (.move "north")
    (.cannotGo "north" []) .warning none
    (.moveNoExit sC4 "north" plaza rfl rfl rfl rfl) 0

/-- The executable `Rat.floor` agrees with Mathlib's `⌊·⌋`. -/
theorem ratFloor_eq_floor (q : ℚ) : q.floor = ⌊q⌋ := by
  rw [Rat.floor_def', Rat.floor_def]

/-- The executable `Rat.ceil` agrees with Mathlib's `⌈·⌉`. -/
theorem ratCeil_eq_ceil (q : ℚ) : q.ceil = ⌈q⌉ := by
  unfold Rat.ceil
  split
  · next h =>
    conv_rhs => rw [← Rat.coe_int_num_of_den_eq_one h]
    rw [Int.ceil_intCast]
  · next h =>
    have hfl : q.num / (q.den : Int) = ⌊q⌋ := Rat.floor_def.symm
    rw [hfl]
    symm
    rw [Int.ceil_eq_iff]
    refine ⟨?_, ?_⟩
    · have h1 : (⌊q⌋ : ℚ) ≤ q := Int.floor_le q
      have h2 : (⌊q⌋ : ℚ) ≠ q := by
        intro he
        exact h (by rw [← he]; exact Rat.den_intCast ⌊q⌋)
      push_cast
      simpa using lt_of_le_of_ne h1 h2
    · push_cast
      exact (Int.lt_floor_add_one q).le

/-- C5: starting from an inventory satisfying
`currentWeight ≤ maxWeight`, any `TAKE` or `BUY` outcome still satisfies
it; when adding the item's weight would exceed the limit the operation
is a pure warning refusal leaving the state unchanged apart from the
log (never clamped); otherwise the item is appended and the weight
grows by exactly the item's weight. -/
theorem C5_weight_invariant (env : Env) (s : GameState) (itemId npcId : String)
    (hw : s.character.inventory.currentWeight ≤ s.character.inventory.maxWeight) :
    (∀ st, handleTake env s itemId = .ok st →
      st.character.inventory.currentWeight ≤ st.character.inventory.maxWeight) ∧
    ((handleBuy env s itemId npcId).character.inventory.currentWeight ≤
      (handleBuy env s itemId npcId).character.inventory.maxWeight) ∧
    (∀ loc item, s.combat.active = false →
      recordGet s.locations s.currentLocationId = some loc →
      loc.items.find? (fun i => i.id == itemId) = some item →
      (s.character.inventory.maxWeight <
          s.character.inventory.currentWeight + item.weight →
        handleTake env s itemId = .ok (addLog env s
          (.cannotCarryTake item.name s.character.inventory.currentWeight
            s.character.inventory.maxWeight) .warning)) ∧
      (s.character.inventory.currentWeight + item.weight ≤
          s.character.inventory.maxWeight →
        (handleTake env s itemId).map
            (fun st => st.character.inventory.currentWeight) =
          .ok (s.character.inventory.currentWeight + item.weight) ∧
        (handleTake env s itemId).map (fun st => st.character.inventory.items) =
          .ok (s.character.inventory.items ++ [item]) ∧
        (handleTake env s itemId).map (fun st => st.character.inventory.maxWeight) =
          .ok s.character.inventory.maxWeight)) ∧
    (∀ npc shop item, s.combat.active = false →
      recordGet s.npcs npcId = some npc →
      npc.shop = some shop →
      shop.items.find? (fun i => i.id == itemId) = some item →
      ((item.value : Rat) * shop.buyMultiplier).ceil ≤ s.character.gold →
      (s.character.inventory.maxWeight <
          s.character.inventory.currentWeight + item.weight →
        handleBuy env s itemId npcId =
          addLog env s (.tooHeavyToBuy item.name) .warning) ∧
      (s.character.inventory.currentWeight + item.weight ≤
          s.character.inventory.maxWeight →
        (handleBuy env s itemId npcId).character.inventory.currentWeight =
          s.character.inventory.currentWeight + item.weight ∧
        (handleBuy env s itemId npcId).character.inventory.items =
          s.character.inventory.items ++ [item])) := by
  refine ⟨?_, ?_, ?_, ?_⟩
  · intro st h
    by_cases hc : s.combat.active
    · simp [handleTake, hc] at h
      subst h; simpa using hw
    · simp only [handleTake, hc, if_false, Bool.false_eq_true] at h
      cases hloc : recordGet s.locations s.currentLocationId with
      | none => simp only [hloc] at h; cases h
      | some loc =>
        simp only [hloc] at h
        cases hfind : loc.items.find? (fun i => i.id == itemId) with
        | none => simp only [hfind] at h; simp at h; subst h; simpa using hw
        | some item =>
          simp only [hfind] at h
          by_cases hover : s.character.inventory.maxWeight <
              s.character.inventory.currentWeight + item.weight
          · rw [if_pos hover] at h; simp at h; subst h; simpa using hw
          · rw [if_neg hover] at h; simp at h; subst h
            simpa using not_lt.mp hover
  · by_cases hc : s.combat.active
    · simpa [handleBuy, hc] using hw
    · simp only [handleBuy, hc, if_false, Bool.false_eq_true]
      cases hnpc : recordGet s.npcs npcId with
      | none => simp only [hnpc]; simpa using hw
      | some npc =>
        simp only [hnpc]
        cases hshop : npc.shop with
        | none => simpa using hw
        | some shop =>
          simp only [hshop]
          cases hfind : shop.items.find? (fun i => i.id == itemId) with
          | none => simpa using hw
          | some item =>
            simp only [hfind]
            by_cases hg : s.character.gold <
                ((item.value : Rat) * shop.buyMultiplier).ceil
            · rw [if_pos hg]; simpa using hw
            · rw [if_neg hg]
              by_cases hover : s.character.inventory.maxWeight <
                  s.character.inventory.currentWeight + item.weight
              · rw [if_pos hover]; simpa using hw
              · rw [if_neg hover]; simpa using not_lt.mp hover
  · intro loc item hc hloc hfind
    refine ⟨?_, ?_⟩
    · intro hover
      simp [handleTake, hc, hloc, hfind, hover]
    · intro hle
      have hover := not_lt.mpr hle
      refine ⟨?_, ?_, ?_⟩ <;> simp [handleTake, hc, hloc, hfind, hover]
  · intro npc shop item hc hnpc hshop hfind hgold
    have hg := not_lt.mpr hgold
    refine ⟨?_, ?_⟩
    · intro hover
      simp [handleBuy, hc, hnpc, hshop, hfind, hg, hover]
    · intro hle
      have hover := not_lt.mpr hle
      constructor <;> simp [handleBuy, hc, hnpc, hshop, hfind, hg, hover]

/-- C9: out of combat with a shop-bearing NPC, a successful BUY charges
exactly `ceil(value × buyMultiplier)` gold and moves the item
shop→inventory, and a SELL pays exactly `floor(value × sellMultiplier)`
gold and moves the item inventory→shop (asymmetric rounding: buy rounds
up, sell rounds down). -/
theorem C9_shop_prices (env : Env) (s : GameState) (itemId npcId : String)
    (npc : NPC) (shop : ShopInventory)
    (hc : s.combat.active = false)
    (hnpc : recordGet s.npcs npcId = some npc)
    (hshop : npc.shop = some shop) :
    (∀ item, shop.items.find? (fun i => i.id == itemId) = some item →
      ((item.value : Rat) * shop.buyMultiplier).ceil ≤ s.character.gold →
      s.character.inventory.currentWeight + item.weight ≤
        s.character.inventory.maxWeight →
      handleBuy env s itemId npcId = addLog env
        { s with
          character := { s.character with
            gold := s.character.gold - ((item.value : Rat) * shop.buyMultiplier).ceil
            inventory := { s.character.inventory with
              items := s.character.inventory.items ++ [item]
              currentWeight := s.character.inventory.currentWeight + item.weight } }
          npcs := recordSet s.npcs npcId { npc with shop := some { shop with
            items := shop.items.eraseIdx
              (shop.items.findIdx (fun i => i.id == itemId)) } } }
        (.youBuy item.name (((item.value : Rat) * shop.buyMultiplier).ceil)
          (s.character.gold - ((item.value : Rat) * shop.buyMultiplier).ceil))
        .success) ∧
    (∀ item, s.character.inventory.items.find? (fun i => i.id == itemId) = some item →
      handleSell env s itemId npcId = addLog env
        { s with
          character := { s.character with
            gold := s.character.gold + ((item.value : Rat) * shop.sellMultiplier).floor
            inventory := { s.character.inventory with
              items := s.character.inventory.items.eraseIdx
                (s.character.inventory.items.findIdx (fun i => i.id == itemId))
              currentWeight := s.character.inventory.currentWeight - item.weight } }
          npcs := recordSet s.npcs npcId { npc with shop := some { shop with
            items := shop.items ++ [item] } } }
        (.youSell item.name (((item.value : Rat) * shop.sellMultiplier).floor)
          (s.character.gold + ((item.value : Rat) * shop.sellMultiplier).floor))
        .success) := by
  constructor
  · intro item hfind hgold hle
    have hg := not_lt.mpr hgold
    have hover := not_lt.mpr hle
    simp [handleBuy, hc, hnpc, hshop, hfind, hg, hover]
  · intro item hfind
    simp [handleSell, hc, hnpc, hshop, hfind]

/-- C5 witness: at the market (carried weight 1/10 ≤ 150), taking the
ground potion raises the weight by exactly 1/2, and buying the longsword
raises it by exactly 3; both stay within the limit. -/
theorem C5_weight_invariant_witness :
    (handleTake env0 sShop "potion-1").map
        (fun st => st.character.inventory.currentWeight) =
      .ok (sShop.character.inventory.currentWeight + healingPotion.weight) ∧
    (handleBuy env0 sShop "shop-sword" "merchant").character.inventory.currentWeight =
      sShop.character.inventory.currentWeight + shopSword.weight ∧
    (handleBuy env0 sShop "shop-sword" "merchant").character.inventory.currentWeight ≤
      (handleBuy env0 sShop "shop-sword" "merchant").character.inventory.maxWeight := by
  have hw : sShop.character.inventory.currentWeight ≤
      sShop.character.inventory.maxWeight := by
    norm_num [sShop, baseHero]
  have h := C5_weight_invariant env0 sShop "potion-1" "merchant" hw
  have h' := C5_weight_invariant env0 sShop "shop-sword" "merchant" hw
  have hgold : ((shopSword.value : Rat) * merchantShop.buyMultiplier).ceil ≤
      sShop.character.gold := by
    rw [ratCeil_eq_ceil]
    have hv : ((shopSword.value : Rat) * merchantShop.buyMultiplier) = 45/2 := by
      norm_num [shopSword, merchantShop]
    rw [hv, Int.ceil_le]
    norm_num [sShop, baseHero]
  refine ⟨?_, ?_, ?_⟩
  · exact ((h.2.2.1 market healingPotion rfl rfl rfl).2
      (by norm_num [sShop, baseHero, healingPotion])).1
  · exact ((h'.2.2.2 merchantNPC merchantShop shopSword rfl rfl rfl rfl hgold).2
      (by norm_num [sShop, baseHero, shopSword])).1
  · exact h'.2.1

/-- C9 witness: value 15 at multiplier 3/2 costs `⌈22.5⌉ = 23` gold
(100 → 77) and at multiplier 1/2 sells for `⌊7.5⌋ = 7` gold
(100 → 107). -/
theorem C9_shop_prices_witness :
    (handleBuy env0 sShop "shop-sword" "merchant").character.gold = 77 ∧
    (handleSell env0 sShop "gem-1" "merchant").character.gold = 107 := by
  have hceil : ((shopSword.value : Rat) * merchantShop.buyMultiplier).ceil = 23 := by
    rw [ratCeil_eq_ceil]
    have hv : ((shopSword.value : Rat) * merchantShop.buyMultiplier) = 45/2 := by
      norm_num [shopSword, merchantShop]
    rw [hv, Int.ceil_eq_iff]
    norm_num
  have hfloor : ((rubyGem.value : Rat) * merchantShop.sellMultiplier).floor = 7 := by
    rw [ratFloor_eq_floor]
    have hv : ((rubyGem.value : Rat) * merchantShop.sellMultiplier) = 15/2 := by
      norm_num [rubyGem, merchantShop]
    rw [hv, Int.floor_eq_iff]
    · norm_num
  have h := C9_shop_prices env0 sShop "shop-sword" "merchant" merchantNPC
    merchantShop rfl rfl rfl
  have h' := C9_shop_prices env0 sShop "gem-1" "merchant" merchantNPC
    merchantShop rfl rfl rfl
  constructor
  · rw [h.1 shopSword rfl (by rw [hceil]; norm_num [sShop, baseHero])
      (by norm_num [sShop, baseHero, shopSword])]
    simp [addLog, hceil, sShop, baseHero]
  · rw [h'.2 rubyGem rfl]
    simp [addLog, hfloor, sShop, baseHero]

/-- Bind in `Except` yields `ok` exactly through an intermediate `ok`. -/
theorem exceptBind_eq_ok {ε α β : Type} {x : Except ε α} {f : α → Except ε β}
    {b : β} : (x >>= f) = .ok b ↔ ∃ a, x = .ok a ∧ f a = .ok b := by
  cases x with
  | error e =>
    simp [show (Except.error e >>= f) = Except.error (α := β) e from rfl]
  | ok a =>
    simp [show (Except.ok a >>= f) = f a from rfl]

/-- An enemy with stats never makes `enemyAttack` throw. -/
theorem enemyAttack_ok (ρ : Nat → Nat) (k : Nat) (e : NPC) (c : Character)
    (st : NPCStats) (h : e.stats = some st) :
    ∃ r, enemyAttack ρ k e c = .ok r := by
  unfold enemyAttack
  rw [h]
  dsimp only
  split_ifs <;> exact ⟨_, rfl⟩

/-- `runEnemyTurns` never changes the character's armor class (it only
applies `damageCharacter` and `addLog` to the character). -/
theorem runEnemyTurns_armorClass (env : Env) :
    ∀ (fuel : Nat) (s : GameState) (k : Nat) (st : GameState) (k' : Nat),
      runEnemyTurns env fuel s k = .ok (st, k') →
      st.character.armorClass = s.character.armorClass := by
  intro fuel
  induction fuel with
  | zero =>
    intro s k st k' h
    simp only [runEnemyTurns] at h
    cases h
    rfl
  | succ fuel IH =>
    intro s k st k' h
    simp only [runEnemyTurns] at h
    split at h
    · split at h
      · exact (IH _ _ _ _ h).trans rfl
      · split at h
        · exact (IH _ _ _ _ h).trans rfl
        · next stats heq =>
          split at h
          · exact (IH _ _ _ _ h).trans rfl
          · obtain ⟨r, hr⟩ := enemyAttack_ok env.rolls k _ s.character stats heq
            rw [hr] at h
            obtain ⟨result, k1⟩ := r
            simp only [exceptBind_ok] at h
            split at h
            · split at h
              · cases h
                rfl
              · exact (IH _ _ _ _ h).trans rfl
            · exact (IH _ _ _ _ h).trans rfl
    · cases h
      rfl

/-- A successful instrumented run is a successful plain run with the
same final state and counter: the ghost trace changes nothing. -/
theorem runEnemyTurnsT_ok (env : Env) :
    ∀ (fuel : Nat) (s : GameState) (k : Nat) (out : GameState × Nat)
      (trace : List AttackRec),
      runEnemyTurnsT env fuel s k = .ok (out, trace) →
      runEnemyTurns env fuel s k = .ok out := by
  intro fuel
  induction fuel with
  | zero =>
    intro s k out trace h
    simp only [runEnemyTurnsT] at h
    cases h
    rfl
  | succ fuel IH =>
    intro s k out trace h
    simp only [runEnemyTurnsT] at h
    simp only [runEnemyTurns]
    split at h
    case isTrue hcond =>
      rw [if_pos hcond]
      split at h
      · exact IH _ _ _ _ h
      · split at h
        · exact IH _ _ _ _ h
        · next stats heq1 =>
          split at h
          case isTrue hhp =>
            rw [if_pos hhp]
            exact IH _ _ _ _ h
          case isFalse hhp =>
            rw [if_neg hhp]
            obtain ⟨r, hr⟩ := enemyAttack_ok env.rolls k _ s.character stats heq1
            rw [hr] at h ⊢
            obtain ⟨result, k1⟩ := r
            simp only [exceptBind_ok] at h ⊢
            split at h
            case isTrue hdmg =>
              rw [if_pos hdmg]
              split at h
              case isTrue hdead =>
                rw [if_pos hdead]
                cases h
                rfl
              case isFalse hdead =>
                rw [if_neg hdead]
                rw [exceptBind_eq_ok] at h
                obtain ⟨⟨out2, tr2⟩, hT, hpair⟩ := h
                cases hpair
                exact IH _ _ _ _ hT
            case isFalse hdmg =>
              rw [if_neg hdmg]
              rw [exceptBind_eq_ok] at h
              obtain ⟨⟨out2, tr2⟩, hT, hpair⟩ := h
              cases hpair
              exact IH _ _ _ _ hT
    case isFalse hcond =>
      rw [if_neg hcond]
      cases h
      rfl

/-- Every attack recorded by the instrumented loop was resolved against
the armor class the character had when the loop was entered. -/
theorem runEnemyTurnsT_trace_ac (env : Env) :
    ∀ (fuel : Nat) (s : GameState) (k : Nat) (out : GameState × Nat)
      (trace : List AttackRec),
      runEnemyTurnsT env fuel s k = .ok (out, trace) →
      ∀ rec ∈ trace, rec.targetAC = s.character.armorClass := by
  intro fuel
  induction fuel with
  | zero =>
    intro s k out trace h
    simp only [runEnemyTurnsT] at h
    cases h
    intro rec hrec
    cases hrec
  | succ fuel IH =>
    intro s k out trace h
    simp only [runEnemyTurnsT] at h
    split at h
    · split at h
      · exact fun rec hrec => (IH _ _ _ _ h rec hrec).trans rfl
      · split at h
        · exact fun rec hrec => (IH _ _ _ _ h rec hrec).trans rfl
        · next stats heq =>
          split at h
          · exact fun rec hrec => (IH _ _ _ _ h rec hrec).trans rfl
          · obtain ⟨r, hr⟩ := enemyAttack_ok env.rolls k _ s.character stats heq
            rw [hr] at h
            obtain ⟨result, k1⟩ := r
            simp only [exceptBind_ok] at h
            split at h
            · split at h
              · cases h
                intro rec hrec
                simp only [List.mem_singleton] at hrec
                subst hrec
                rfl
              · rw [exceptBind_eq_ok] at h
                obtain ⟨⟨out2, tr2⟩, hT, hpair⟩ := h
                cases hpair
                intro rec hrec
                simp only [List.mem_cons] at hrec
                rcases hrec with hrec | hrec
                · subst hrec; rfl
                · exact (IH _ _ _ _ hT rec hrec).trans rfl
            · rw [exceptBind_eq_ok] at h
              obtain ⟨⟨out2, tr2⟩, hT, hpair⟩ := h
              cases hpair
              intro rec hrec
              simp only [List.mem_cons] at hrec
              rcases hrec with hrec | hrec
              · subst hrec; rfl
              · exact (IH _ _ _ _ hT rec hrec).trans rfl
    · cases h
      intro rec hrec
      cases hrec

/-- C7: with active combat on the player's turn, DEFEND returns a state
whose armor class equals the input's (the +2 never persists — including
the path where the player dies mid-loop and combat is reset, since
`runEnemyTurns` preserves armor class on every path and the −2 is
applied to whatever it returns), the state handed to the enemy-turn loop
carries armor class +2, and every enemy attack resolved inside that loop
is made against input armor class + 2. -/
theorem C7_defend_ac_transient (env : Env) (fuel : Nat) (s : GameState) (k : Nat)
    (hactive : s.combat.active = true)
    (hturn : isPlayerTurn s.combat s.character.id = true) :
    (∀ st k', handleDefend env fuel s k = .ok (st, k') →
      st.character.armorClass = s.character.armorClass) ∧
    (defendIntermediate env s).character.armorClass = s.character.armorClass + 2 ∧
    (∀ out trace,
      runEnemyTurnsT env fuel (defendIntermediate env s) k = .ok (out, trace) →
      runEnemyTurns env fuel (defendIntermediate env s) k = .ok out ∧
      ∀ rec ∈ trace, rec.targetAC = s.character.armorClass + 2) := by
  refine ⟨?_, rfl, ?_⟩
  · intro st k' h
    simp only [handleDefend, hactive, hturn] at h
    simp only [Bool.not_true, if_false, Bool.false_eq_true, reduceIte] at h
    rw [exceptBind_eq_ok] at h
    obtain ⟨⟨st0, k1⟩, hrun, hok⟩ := h
    cases hok
    have hac := runEnemyTurns_armorClass env fuel (defendIntermediate env s) k st0 k1 hrun
    simp only [defendIntermediate, addLog_character] at hac
    simp only [hac]
    omega
  · intro out trace h
    exact ⟨runEnemyTurnsT_ok env fuel _ k out trace h,
      fun rec hrec => runEnemyTurnsT_trace_ac env fuel _ k out trace h rec hrec⟩

/-- C7 witness: defending at `sCombat` (armor class 10): the goblin's
attack inside the call is resolved against 12, and the returned armor
class is 10 again. -/
theorem C7_defend_ac_transient_witness :
    (handleDefend env0 5 sCombat 0).map (fun p => p.1.character.armorClass) =
      .ok sCombat.character.armorClass ∧
    (runEnemyTurnsT env0 5 (defendIntermediate env0 sCombat) 0).map
        (fun p => p.2.map (fun rec => rec.targetAC)) =
      .ok [sCombat.character.armorClass + 2] := by
  have h := C7_defend_ac_transient env0 5 sCombat 0 rfl rfl
  constructor
  · cases hrun : handleDefend env0 5 sCombat 0 with
    | error e =>
      have hok : (handleDefend env0 5 sCombat 0).toOption.isSome = true := by rfl
      rw [hrun] at hok
      cases hok
    | ok p =>
      obtain ⟨st, k'⟩ := p
      rw [exceptMap_ok]
      rw [h.1 st k' hrun]
  · rfl

/-- Neither mid-fight mutation (`updateEnemyHP`, `nextTurn`) changes the
enemy count recorded at combat start. -/
theorem combatReach_totalEnemyCount (a b : CombatState) (h : CombatReach a b) :
    b.totalEnemyCount = a.totalEnemyCount := by
  induction h with
  | refl => rfl
  | hp b enemyId damage h ih => exact ih
  | turn b h ih =>
    simp only [nextTurn]
    split <;> exact ih

/-- Each summand of the gold loop lies in `[10, 50]`. -/
theorem sumGold_bounds (ρ : Nat → Nat) :
    ∀ (n : Nat) (k : Nat),
      10 * (n : Int) ≤ sumGold ρ k n ∧ sumGold ρ k n ≤ 50 * (n : Int) := by
  intro n
  induction n with
  | zero => intro k; simp [sumGold]
  | succ n ih =>
    intro k
    obtain ⟨h1, h2⟩ := ih (k + 1)
    have hmod : ρ k % 41 ≤ 40 := Nat.le_of_lt_succ (Nat.mod_lt _ (by omega))
    simp only [sumGold, Int.ofNat_eq_natCast]
    push_cast
    constructor <;> omega

/-- C8: for any combat state reachable from `initiateCombat` with a
non-empty enemy list by mid-fight mutations (including ones that empty
the live-enemies array), settlement pays experience exactly
`totalEnemyCount × 100` where `totalEnemyCount` is the initial list
length, and gold `sumGold` — the sum of `totalEnemyCount` draws, each in
`[10, 50]`. -/
theorem C8_rewards_from_original_count (ρ₀ ρ : Nat → Nat) (k₀ k : Nat)
    (c : Character) (enemies : List NPC) (cmb : CombatState)
    (hne : enemies ≠ [])
    (hreach : CombatReach (initiateCombat ρ₀ k₀ c enemies).1 cmb) :
    cmb.totalEnemyCount = enemies.length ∧
    (endCombat ρ k cmb).1.experienceGained = (enemies.length : Int) * 100 ∧
    (endCombat ρ k cmb).1.goldGained = sumGold ρ k enemies.length ∧
    10 * (enemies.length : Int) ≤ (endCombat ρ k cmb).1.goldGained ∧
    (endCombat ρ k cmb).1.goldGained ≤ 50 * (enemies.length : Int) ∧
    (∀ i, i < enemies.length →
      10 ≤ Int.ofNat (ρ (k + i) % 41) + 10 ∧
      Int.ofNat (ρ (k + i) % 41) + 10 ≤ 50) := by
  have htot : cmb.totalEnemyCount = enemies.length :=
    (combatReach_totalEnemyCount _ _ hreach).trans rfl
  have hlen : enemies.length ≠ 0 := fun h0 => hne (List.length_eq_zero.mp h0)
  have hcount : (if cmb.totalEnemyCount ≠ 0 then cmb.totalEnemyCount
      else cmb.enemies.length) = enemies.length := by
    rw [htot]
    simp [hlen]
  refine ⟨htot, ?_, ?_, ?_, ?_, ?_⟩
  · simp only [endCombat, hcount, Int.ofNat_eq_natCast]
  · simp only [endCombat, hcount]
  · simp only [endCombat, hcount]
    exact (sumGold_bounds ρ enemies.length k).1
  · simp only [endCombat, hcount]
    exact (sumGold_bounds ρ enemies.length k).2
  · intro i _
    have hmod : ρ (k + i) % 41 ≤ 40 := Nat.le_of_lt_succ (Nat.mod_lt _ (by omega))
    simp only [Int.ofNat_eq_natCast]
    omega

/-- C8 witness: initiating combat against the 1-HP skeleton, then
applying 20 damage, empties the live-enemies array; settlement still
pays `1 × 100` XP and one draw of gold (19 under `env0`). -/
theorem C8_rewards_from_original_count_witness :
    (updateEnemyHP (initiateCombat env0.rolls 0 baseHero [skeletonNPC]).1
        "skeleton-warrior" 20).combat.enemies = [] ∧
    (endCombat env0.rolls 5
        (updateEnemyHP (initiateCombat env0.rolls 0 baseHero [skeletonNPC]).1
          "skeleton-warrior" 20).combat).1.experienceGained = 100 ∧
    (endCombat env0.rolls 5
        (updateEnemyHP (initiateCombat env0.rolls 0 baseHero [skeletonNPC]).1
          "skeleton-warrior" 20).combat).1.goldGained = 19 := by
  have h := C8_rewards_from_original_count env0.rolls env0.rolls 0 5 baseHero
    [skeletonNPC]
    (updateEnemyHP (initiateCombat env0.rolls 0 baseHero [skeletonNPC]).1
      "skeleton-warrior" 20).combat
    (by simp)
    (.hp _ _ "skeleton-warrior" 20 (.refl _))
  exact ⟨by rfl, by simpa using h.2.1, by rw [h.2.2.1]; rfl⟩

end DG
